import Mathlib

/-!
# Verification of the SportMonks ingestion layer (`sportsmonks_database.py`)

A shallow embedding of the upsert/ETL layer of `SportMonksDB`.  Each SQL table
is modelled as a list of `(key, row)` pairs; `INSERT OR REPLACE` deletes every
row that conflicts with the new key and appends the new row, `INSERT OR IGNORE`
appends only when no row conflicts, and inserting a `NULL` value into an
`INTEGER PRIMARY KEY` column assigns a fresh rowid (max existing key + 1), as
SQLite does.  A row holds exactly the columns the source's statements write
(columns a statement leaves unlisted become `NULL` in the replaced row).
The schema is the one the repository's own `create_tables` builds; an
`INSERT` that names a column absent from that schema fails at statement
preparation with `sqlite3.OperationalError`, writes nothing, and — since the
module has no exception handler — aborts the running method.  Four fixture-
path statements are in that situation (league, venue, participant-team and
player inserts); the orchestrator model raises exactly where they execute.

Python input dictionaries become structures of optional fields: `none` stands
for an absent (or falsy) entry, `dict['k']` access on a `none` field raises
`KeyError "k"`, and `dict.get('k')` reads the optional field directly.  Fields
whose value only matters through Python truthiness (the `1 if x else 0`
normalisations, and values stored raw) use a small JSON-scalar type `JVal`.
-/

namespace Sportsmonks

/-- A scalar as stored by SQLite (NULL / INTEGER / TEXT; REAL-typed columns are
modelled over the integers). -/
inductive SqlVal where
  | vnull : SqlVal
  | vint (n : Int) : SqlVal
  | vtext (s : String) : SqlVal
deriving DecidableEq

/-- A Python/JSON scalar, for fields whose truthiness or raw value matters. -/
inductive JVal where
  | jnull : JVal
  | jbool (b : Bool) : JVal
  | jint (n : Int) : JVal
  | jstr (s : String) : JVal
deriving DecidableEq

/-- Python truthiness of a JSON scalar. -/
def JVal.truthy : JVal → Bool
  | .jnull => false
  | .jbool b => b
  | .jint n => n != 0
  | .jstr s => s != ""

/-- Truthiness of `dict.get(k)` (an absent key reads as `None`, which is falsy). -/
def truthyOpt : Option JVal → Bool
  | none => false
  | some v => v.truthy

/-- The source's `1 if x else 0` normalisation of a flag field. -/
def flag (v : Option JVal) : SqlVal := .vint (if truthyOpt v then 1 else 0)

/-- How sqlite3 binds a raw Python scalar parameter (bool adapts to 0/1). -/
def JVal.toSql : JVal → SqlVal
  | .jnull => .vnull
  | .jbool b => .vint (if b then 1 else 0)
  | .jint n => .vint n
  | .jstr s => .vtext s

/-- `team.get('placeholder', 0)`-style read: an absent key defaults to `0`,
a present key passes its raw value through. -/
def rawDefaultZero (v : Option JVal) : SqlVal :=
  match v with
  | none => .vint 0
  | some w => w.toSql

/-- Fresh rowid assigned by SQLite when NULL is inserted into an
`INTEGER PRIMARY KEY` column: one more than the largest existing key. -/
def freshId {α : Type} (t : List (Int × α)) : Int :=
  ((t.map Prod.fst).foldl max 0) + 1

/-- `INSERT OR REPLACE` into a table keyed by an `INTEGER PRIMARY KEY` column:
with an explicit key, every conflicting row is deleted and the new row
appended; with a NULL key, a fresh rowid is assigned and the row appended. -/
def upsertId {α : Type} (k : Option Int) (d : α) (t : List (Int × α)) :
    List (Int × α) :=
  match k with
  | some i => (t.filter fun r => r.1 != i) ++ [(i, d)]
  | none => t ++ [(freshId t, d)]

/-- `INSERT OR IGNORE` into a table keyed by an `INTEGER PRIMARY KEY` column:
with an explicit key the insert is dropped when a row with that key exists;
with a NULL key a fresh rowid is assigned (NULL never conflicts). -/
def insertIgnoreId {α : Type} (k : Option Int) (d : α) (t : List (Int × α)) :
    List (Int × α) :=
  match k with
  | some i => if t.any (fun r => r.1 == i) then t else t ++ [(i, d)]
  | none => t ++ [(freshId t, d)]

/-- `INSERT OR REPLACE` into a table with a general (possibly composite)
primary key, parameterised by the engine's conflict test `c old new` (SQL
NULLs in a composite key never conflict, hence the parameter). -/
def upsertBy {κ α : Type} (c : κ → κ → Bool) (k : κ) (d : α)
    (t : List (κ × α)) : List (κ × α) :=
  (t.filter fun r => !(c r.1 k)) ++ [(k, d)]

/-- Conflict test for the `fixture_participants` composite key
`(fixture_id, team_id)`: rows conflict only when both columns are equal and
non-NULL (SQL NULLs are pairwise distinct in uniqueness checks). -/
def fpConflict (a b : Option Int × Option Int) : Bool :=
  a.1.isSome && a.2.isSome && a == b

/-- Fold a list of keyed writes over a table with `upsertBy`. -/
def applyBy {κ α : Type} (c : κ → κ → Bool) (ws : List (κ × α))
    (t : List (κ × α)) : List (κ × α) :=
  ws.foldl (fun acc w => upsertBy c w.1 w.2 acc) t

/-- Fold a list of optionally-keyed writes over an id-keyed table. -/
def applyId {α : Type} (ws : List (Option Int × α)) (t : List (Int × α)) :
    List (Int × α) :=
  ws.foldl (fun acc w => upsertId w.1 w.2 acc) t

section UpsertLemmas

variable {κ α : Type}

@[simp] theorem applyBy_nil (c : κ → κ → Bool) (t : List (κ × α)) :
    applyBy c [] t = t := rfl

@[simp] theorem applyBy_cons (c : κ → κ → Bool) (w : κ × α)
    (ws : List (κ × α)) (t : List (κ × α)) :
    applyBy c (w :: ws) t = applyBy c ws (upsertBy c w.1 w.2 t) := rfl

@[simp] theorem applyId_nil (t : List (Int × α)) : applyId [] t = t := rfl

@[simp] theorem applyId_cons (w : Option Int × α)
    (ws : List (Option Int × α)) (t : List (Int × α)) :
    applyId (w :: ws) t = applyId ws (upsertId w.1 w.2 t) := rfl

/-- Applying a write list splits into the surviving old rows followed by the
rows the writes themselves produce (which do not depend on the old table). -/
theorem applyBy_split (c : κ → κ → Bool) (ws : List (κ × α)) :
    ∀ t, applyBy c ws t =
      t.filter (fun r => ws.all fun w => !(c r.1 w.1)) ++ applyBy c ws [] := by
  induction ws with
  | nil => intro t; simp
  | cons w ws ih =>
    intro t
    rw [applyBy_cons, ih (upsertBy c w.1 w.2 t), applyBy_cons,
      ih (upsertBy c w.1 w.2 [])]
    simp only [upsertBy, List.filter_append, List.filter_filter,
      List.filter_nil, List.nil_append, List.all_cons, List.append_assoc]
    congr 1
    apply List.filter_congr
    intro a _
    simp [Bool.and_comm]

/-- Every row a write list produces on the empty table carries a key from the
write list itself. -/
theorem key_mem_of_mem_applyBy_nil (c : κ → κ → Bool) (ws : List (κ × α)) :
    ∀ r ∈ applyBy c ws [], r.1 ∈ ws.map Prod.fst := by
  induction ws with
  | nil => intro r hr; simp [applyBy] at hr
  | cons w ws ih =>
    intro r hr
    rw [applyBy_cons, applyBy_split] at hr
    rcases List.mem_append.1 hr with h | h
    · have := List.mem_filter.1 h
      rcases this with ⟨hmem, _⟩
      simp only [upsertBy, List.filter_nil, List.nil_append,
        List.mem_singleton] at hmem
      subst hmem
      simp
    · have := ih r h
      simp only [List.map_cons, List.mem_cons]
      exact Or.inr this

/-- Replaying a list of keyed writes is a no-op, provided every write's key
conflicts with itself (true for every non-NULL key). -/
theorem applyBy_idem (c : κ → κ → Bool) (ws : List (κ × α))
    (t : List (κ × α)) (h : ∀ w ∈ ws, c w.1 w.1 = true) :
    applyBy c ws (applyBy c ws t) = applyBy c ws t := by
  rw [applyBy_split c ws (applyBy c ws t), applyBy_split c ws t,
    List.filter_append, List.filter_filter]
  have hkill : (applyBy c ws []).filter
      (fun r => ws.all fun w => !(c r.1 w.1)) = [] := by
    rw [List.filter_eq_nil_iff]
    intro r hr
    have hk := key_mem_of_mem_applyBy_nil c ws r hr
    rcases List.mem_map.1 hk with ⟨w, hw, hwk⟩
    simp only [List.all_eq_true, Bool.not_eq_true']
    intro hall
    have := hall w hw
    rw [← hwk] at this
    rw [h w hw] at this
    simp at this
  rw [hkill, List.append_nil]
  congr 1
  apply List.filter_congr
  intro a _
  simp

/-- A key present in the table stays present across any batch of writes,
provided conflicts only hold between equal keys (a conflicting later write
re-inserts the same key). -/
theorem key_preserved_applyBy (c : κ → κ → Bool)
    (hc : ∀ a b, c a b = true → a = b) (ws : List (κ × α)) :
    ∀ (t : List (κ × α)) (k : κ), (∃ d', (k, d') ∈ t) →
      ∃ d', (k, d') ∈ applyBy c ws t := by
  induction ws with
  | nil => intro t k h; exact h
  | cons w ws ih =>
    intro t k h
    rw [applyBy_cons]
    apply ih
    rcases h with ⟨d', hd'⟩
    by_cases hcf : c k w.1 = true
    · have hk := hc _ _ hcf
      subst hk
      exact ⟨w.2, by simp [upsertBy]⟩
    · refine ⟨d', ?_⟩
      simp only [upsertBy, List.mem_append, List.mem_filter]
      exact Or.inl ⟨hd', by simp [hcf]⟩

/-- A key written by some write in the list is present in the resulting
table, provided conflicts only hold between equal keys. -/
theorem mem_applyBy_of_mem (c : κ → κ → Bool)
    (hc : ∀ a b, c a b = true → a = b) (ws : List (κ × α)) (k : κ) (d : α) :
    ∀ t, (k, d) ∈ ws → ∃ d', (k, d') ∈ applyBy c ws t := by
  induction ws with
  | nil => intro t h; simp at h
  | cons w ws ih =>
    intro t h
    rcases List.mem_cons.1 h with h | h
    · rw [applyBy_cons]
      apply key_preserved_applyBy c hc ws
      exact ⟨d, by rw [← h]; simp [upsertBy]⟩
    · exact ih (upsertBy c w.1 w.2 t) h

/-- Every row of `applyBy` comes from the old table or from the write list
(this is how row-level invariants transport across a batch of writes). -/
theorem data_of_mem_applyBy (c : κ → κ → Bool) (ws : List (κ × α)) :
    ∀ t r, r ∈ applyBy c ws t → r ∈ t ∨ r.2 ∈ ws.map Prod.snd := by
  induction ws with
  | nil => intro t r hr; exact Or.inl hr
  | cons w ws ih =>
    intro t r hr
    rw [applyBy_cons] at hr
    rcases ih _ r hr with h | h
    · simp only [upsertBy, List.mem_append, List.mem_filter,
        List.mem_singleton] at h
      rcases h with ⟨h, _⟩ | h
      · exact Or.inl h
      · subst h; simp
    · simp only [List.map_cons, List.mem_cons]
      exact Or.inr (Or.inr h)

/-- After an `upsertBy` under an equality-test conflict, the rows matching the
written key are exactly the single new row. -/
theorem filter_upsertBy_beq [BEq κ] [LawfulBEq κ] (k : κ) (d : α)
    (t : List (κ × α)) :
    (upsertBy (fun a b => a == b) k d t).filter (fun r => r.1 == k) =
      [(k, d)] := by
  simp only [upsertBy, List.filter_append, List.filter_filter]
  rw [List.filter_eq_nil_iff.2 (fun r _ => by cases h : r.1 == k <;> simp [h])]
  simp

end UpsertLemmas

section UpsertIdLemmas

variable {α : Type}

/-- With every key explicit, applying id-keyed writes splits into surviving
old rows followed by the write-produced rows. -/
theorem applyId_split (ws : List (Option Int × α))
    (hk : ∀ w ∈ ws, w.1.isSome = true) :
    ∀ t, applyId ws t =
      t.filter (fun r => ws.all fun w => !(w.1 == some r.1)) ++
        applyId ws [] := by
  induction ws with
  | nil => intro t; simp
  | cons w ws ih =>
    intro t
    rcases Option.isSome_iff_exists.1 (hk w (List.mem_cons_self w ws))
      with ⟨i, hi⟩
    have ih' := ih (fun w hw => hk w (List.mem_cons_of_mem _ hw))
    rw [applyId_cons, ih' (upsertId w.1 w.2 t), applyId_cons,
      ih' (upsertId w.1 w.2 [])]
    rw [hi]
    simp only [upsertId, List.filter_append, List.filter_filter,
      List.filter_nil, List.nil_append, List.all_cons, List.append_assoc]
    congr 1
    apply List.filter_congr
    intro a _
    rw [hi]
    have hbeq : (a.1 != i) = !(some i == some a.1) := by
      cases h : (a.1 == i)
      · simp only [bne, h]
        have : ¬ (i = a.1) := fun he => by simp [he] at h
        simp [this]
      · have he : a.1 = i := by simpa using h
        subst he
        simp
    rw [Bool.and_comm, hbeq]

/-- Every row produced by explicit-key id writes on the empty table carries
one of the written keys. -/
theorem key_mem_of_mem_applyId_nil (ws : List (Option Int × α))
    (hk : ∀ w ∈ ws, w.1.isSome = true) :
    ∀ r ∈ applyId ws [], some r.1 ∈ ws.map Prod.fst := by
  induction ws with
  | nil => intro r hr; simp [applyId] at hr
  | cons w ws ih =>
    intro r hr
    rcases Option.isSome_iff_exists.1 (hk w (List.mem_cons_self w ws))
      with ⟨i, hi⟩
    rw [applyId_cons, applyId_split ws
      (fun w hw => hk w (List.mem_cons_of_mem _ hw))] at hr
    rcases List.mem_append.1 hr with h | h
    · rcases List.mem_filter.1 h with ⟨hmem, _⟩
      rw [hi] at hmem
      simp only [upsertId, List.filter_nil, List.nil_append,
        List.mem_singleton] at hmem
      subst hmem
      simp [hi]
    · have := ih (fun w hw => hk w (List.mem_cons_of_mem _ hw)) r h
      simp only [List.map_cons, List.mem_cons]
      exact Or.inr this

/-- Replaying a list of id-keyed writes is a no-op, provided no write has a
NULL key (a NULL key would take a fresh rowid on each replay). -/
theorem applyId_idem (ws : List (Option Int × α)) (t : List (Int × α))
    (hk : ∀ w ∈ ws, w.1.isSome = true) :
    applyId ws (applyId ws t) = applyId ws t := by
  rw [applyId_split ws hk (applyId ws t), applyId_split ws hk t,
    List.filter_append, List.filter_filter]
  have hkill : (applyId ws []).filter
      (fun r => ws.all fun w => !(w.1 == some r.1)) = [] := by
    rw [List.filter_eq_nil_iff]
    intro r hr
    have hkm := key_mem_of_mem_applyId_nil ws hk r hr
    rcases List.mem_map.1 hkm with ⟨w, hw, hwk⟩
    simp only [List.all_eq_true, Bool.not_eq_true']
    intro hall
    have := hall w hw
    rw [hwk] at this
    simp at this
  rw [hkill, List.append_nil]
  congr 1
  apply List.filter_congr
  intro a _
  simp

/-- A key present in an id-keyed table stays present across any batch of
id-keyed writes (a conflicting later write re-inserts the same key; a
NULL-keyed write only appends). -/
theorem key_preserved_applyId (ws : List (Option Int × α)) :
    ∀ (t : List (Int × α)) (i : Int), (∃ d', (i, d') ∈ t) →
      ∃ d', (i, d') ∈ applyId ws t := by
  induction ws with
  | nil => intro t i h; exact h
  | cons w ws ih =>
    intro t i h
    rw [applyId_cons]
    apply ih
    rcases h with ⟨d', hd'⟩
    match hw : w.1 with
    | some j =>
      by_cases hij : i = j
      · subst hij
        exact ⟨w.2, by simp [upsertId, hw]⟩
      · refine ⟨d', ?_⟩
        simp only [upsertId, hw, List.mem_append, List.mem_filter]
        exact Or.inl ⟨hd', by simp [hij]⟩
    | none =>
      exact ⟨d', by simp [upsertId, hw, hd']⟩

/-- A key explicitly written somewhere in an id-keyed write list is present
in the resulting table. -/
theorem mem_applyId_of_mem (ws : List (Option Int × α)) (i : Int) (d : α) :
    ∀ t, (some i, d) ∈ ws → ∃ d', (i, d') ∈ applyId ws t := by
  induction ws with
  | nil => intro t h; simp at h
  | cons w ws ih =>
    intro t h
    rcases List.mem_cons.1 h with h | h
    · rw [applyId_cons]
      apply key_preserved_applyId ws
      exact ⟨d, by rw [← h]; simp [upsertId]⟩
    · exact ih (upsertId w.1 w.2 t) h

/-- Every row of `applyId` comes from the old table or from the write list. -/
theorem data_of_mem_applyId (ws : List (Option Int × α)) :
    ∀ t r, r ∈ applyId ws t → r ∈ t ∨ r.2 ∈ ws.map Prod.snd := by
  induction ws with
  | nil => intro t r hr; exact Or.inl hr
  | cons w ws ih =>
    intro t r hr
    rw [applyId_cons] at hr
    rcases ih _ r hr with h | h
    · match hw : w.1 with
      | some i =>
        simp only [upsertId, hw, List.mem_append, List.mem_filter,
          List.mem_singleton] at h
        rcases h with ⟨h, _⟩ | h
        · exact Or.inl h
        · subst h; simp
      | none =>
        simp only [upsertId, hw, List.mem_append, List.mem_singleton] at h
        rcases h with h | h
        · exact Or.inl h
        · subst h; simp
    · simp only [List.map_cons, List.mem_cons]
      exact Or.inr (Or.inr h)

end UpsertIdLemmas

/-! ## Input records (Python dictionaries) and table rows

One structure per payload dictionary shape, with one optional field per key
the source reads, and one structure per table holding exactly the columns the
source's `INSERT` statements write (key columns live in the table's key). -/

/-- A `continents` input dict (`insert_or_update_continents`). -/
structure ContinentIn where
  id : Option Int := none
  name : Option String := none
  code : Option String := none
deriving DecidableEq

/-- A `continents` row: columns `(name, code)` besides the key `id`. -/
structure ContinentRow where
  name : String
  code : Option String
deriving DecidableEq

/-- A city dict (standalone `insert_or_update_cities` input, or the `city`
sub-dict of a venue). -/
structure CityIn where
  id : Option Int := none
  name : Option String := none
  region_id : Option Int := none
  country_id : Option Int := none
deriving DecidableEq

/-- A `cities` row: columns `(name, region_id, country_id)`. -/
structure CityRow where
  name : String
  region_id : Option Int
  country_id : Option Int
deriving DecidableEq

/-- A match-state dict (`insert_or_update_states` input, or the `state`
sub-dict of a fixture; every key is read with `.get`). -/
structure StateIn where
  id : Option Int := none
  state : Option String := none
  name : Option String := none
  short_name : Option String := none
  developer_name : Option String := none
deriving DecidableEq

/-- A `states` row: columns `(state, name, short_name, developer_name)`. -/
structure StateRow where
  state : Option String
  name : Option String
  short_name : Option String
  developer_name : Option String
deriving DecidableEq

/-- A venue dict (standalone `insert_or_update_venues` input, or the `venue`
sub-dict of a fixture). -/
structure VenueIn where
  id : Option Int := none
  name : Option String := none
  city : Option CityIn := none
  city_id : Option Int := none
  country_id : Option Int := none
  capacity : Option Int := none
  address : Option String := none
  zipcode : Option String := none
  latitude : Option Int := none
  longitude : Option Int := none
  image_path : Option String := none
  city_name : Option String := none
  surface : Option String := none
  national_team : Option JVal := none
deriving DecidableEq

/-- A `venues` row: union of the columns the two venue `INSERT` statements
write (`create_tables` omits `zipcode`; the fixture-path statement writes it,
see the schema note in the header). -/
structure VenueRow where
  name : Option String
  city_id : Option Int
  country_id : Option Int
  capacity : Option Int
  address : Option String
  zipcode : Option String
  latitude : Option Int
  longitude : Option Int
  surface : Option String
  image_path : Option String
  city_name : Option String
  national_team : SqlVal
deriving DecidableEq

/-- The `league` sub-dict of a fixture. -/
structure LeagueIn where
  id : Option Int := none
  sport_id : Option Int := none
  country_id : Option Int := none
  name : Option String := none
  active : Option JVal := none
  short_code : Option String := none
  image_path : Option String := none
  type : Option String := none
  sub_type : Option String := none
  last_played_at : Option String := none
  category : Option Int := none
  has_jerseys : Option JVal := none
deriving DecidableEq

/-- A `leagues` row: the columns the fixture-path league `INSERT` writes. -/
structure LeagueRow where
  sport_id : Option Int
  country_id : Option Int
  name : Option String
  active : SqlVal
  short_code : Option String
  image_path : Option String
  type : Option String
  sub_type : Option String
  last_played_at : Option String
  category : Option Int
  has_jerseys : SqlVal
deriving DecidableEq

/-- The `meta` sub-dict of a fixture participant. -/
structure MetaIn where
  location : Option String := none
  winner : Option JVal := none
  position : Option Int := none
deriving DecidableEq

/-- A team dict (standalone `insert_or_update_teams` input, or one entry of a
fixture's `participants` list, which additionally carries `meta`). -/
structure TeamIn where
  id : Option Int := none
  sport_id : Option Int := none
  country_id : Option Int := none
  venue_id : Option Int := none
  name : Option String := none
  short_code : Option String := none
  founded : Option Int := none
  type : Option String := none
  placeholder : Option JVal := none
  gender : Option String := none
  logo_path : Option String := none
  image_path : Option String := none
  last_played_at : Option String := none
  meta : Option MetaIn := none
deriving DecidableEq

/-- A `teams` row: union of the columns the two team `INSERT` statements
write. -/
structure TeamRow where
  sport_id : Option Int
  country_id : Option Int
  venue_id : Option Int
  name : Option String
  short_code : Option String
  founded : Option Int
  type : Option String
  placeholder : SqlVal
  gender : Option String
  logo_path : Option String
  image_path : Option String
  last_played_at : Option String
deriving DecidableEq

/-- An event/stat/sideline `type` sub-dict. -/
structure TypIn where
  id : Option Int := none
  name : Option String := none
  code : Option String := none
  developer_name : Option String := none
  model_type : Option String := none
  stat_group : Option String := none
deriving DecidableEq

/-- An `event_types` / `stat_types` / `sideline_types` row. -/
structure TypRow where
  name : Option String
  code : Option String
  developer_name : Option String
  model_type : Option String
  stat_group : Option String
deriving DecidableEq

/-- One entry of a squad player's `statistics` list. -/
structure PlayerStatIn where
  type : Option TypIn := none
  value : Option JVal := none
deriving DecidableEq

/-- A player dict (the `player` sub-dict of a squad entry, an event or a
sideline record; squad players may carry a `statistics` list). -/
structure PlayerIn where
  id : Option Int := none
  sport_id : Option Int := none
  country_id : Option Int := none
  nationality_id : Option Int := none
  city_id : Option Int := none
  position_id : Option Int := none
  detailed_position_id : Option Int := none
  type_id : Option Int := none
  name : Option String := none
  common_name : Option String := none
  firstname : Option String := none
  lastname : Option String := none
  display_name : Option String := none
  image_path : Option String := none
  height : Option Int := none
  weight : Option Int := none
  date_of_birth : Option String := none
  gender : Option String := none
  statistics : Option (List PlayerStatIn) := none
deriving DecidableEq

/-- A `players` row: union of the columns the player `INSERT` statements
write. -/
structure PlayerRow where
  sport_id : Option Int
  country_id : Option Int
  nationality_id : Option Int
  city_id : Option Int
  position_id : Option Int
  detailed_position_id : Option Int
  type_id : Option Int
  name : Option String
  common_name : Option String
  firstname : Option String
  lastname : Option String
  display_name : Option String
  image_path : Option String
  height : Option Int
  weight : Option Int
  date_of_birth : Option String
  gender : Option String
deriving DecidableEq

/-- One entry of the squad list passed to `insert_or_update_team_squad`. -/
structure SquadItemIn where
  player : Option PlayerIn := none
  jersey_number : Option Int := none
  on_loan : Option JVal := none
deriving DecidableEq

/-- A `team_squad` row: columns `(jersey_number, on_loan)` besides the
composite key `(team_id, season_id, player_id)`. -/
structure SquadRow where
  jersey_number : Option Int
  on_loan : SqlVal
deriving DecidableEq

/-- A `player_stat_detail` row: column `value` besides the composite key
`(player_id, season_id, stat_type_id)`; `stat.get('value', 0)` defaults an
absent key to 0 and passes a present value through raw. -/
structure PlayerStatRow where
  value : SqlVal
deriving DecidableEq

/-- A `fixtures` row: the columns the fixture `INSERT` writes. -/
structure FixtureRow where
  sport_id : Option Int
  league_id : Option Int
  season_id : Option Int
  stage_id : Option Int
  group_id : Option Int
  aggregate_id : Option Int
  round_id : Option Int
  state_id : Option Int
  venue_id : Option Int
  name : Option String
  starting_at : Option String
  result_info : Option String
  leg : Option String
  details : Option String
  length : Option Int
  placeholder : SqlVal
  has_odds : SqlVal
  starting_at_timestamp : Option Int
deriving DecidableEq

/-- A `fixture_participants` row: columns `(location, winner, position)`
besides the composite key `(fixture_id, team_id)`. -/
structure FPRow where
  location : Option String
  winner : SqlVal
  position : Option Int
deriving DecidableEq

/-- The `score` sub-dict of a scores entry. -/
structure ScoreSubIn where
  goals : Option Int := none
  participant : Option String := none
deriving DecidableEq

/-- One entry of a fixture's `scores` list. -/
structure ScoreIn where
  id : Option Int := none
  fixture_id : Option Int := none
  type_id : Option Int := none
  participant_id : Option Int := none
  score : Option ScoreSubIn := none
  description : Option String := none
deriving DecidableEq

/-- A `scores` row. -/
structure ScoreRow where
  fixture_id : Option Int
  type_id : Option Int
  participant_id : Option Int
  goals : Option Int
  participant : Option String
  description : Option String
deriving DecidableEq

/-- The `period` sub-dict of an event. -/
structure PeriodIn where
  id : Option Int := none
  fixture_id : Option Int := none
  type_id : Option Int := none
  started : Option Int := none
  ended : Option Int := none
  counts_from : Option Int := none
  ticking : Option JVal := none
  sort_order : Option Int := none
  description : Option String := none
  time_added : Option Int := none
  period_length : Option Int := none
  minutes : Option Int := none
  seconds : Option Int := none
  has_timer : Option JVal := none
deriving DecidableEq

/-- A `periods` row. -/
structure PeriodRow where
  fixture_id : Option Int
  type_id : Option Int
  started : Option Int
  ended : Option Int
  counts_from : Option Int
  ticking : SqlVal
  sort_order : Option Int
  description : Option String
  time_added : Option Int
  period_length : Option Int
  minutes : Option Int
  seconds : Option Int
  has_timer : SqlVal
deriving DecidableEq

/-- One entry of a fixture's `events` list (`esection` models the source's
`section` key, which is a reserved word here). -/
structure EventIn where
  id : Option Int := none
  fixture_id : Option Int := none
  period_id : Option Int := none
  participant_id : Option Int := none
  type_id : Option Int := none
  esection : Option String := none
  player_id : Option Int := none
  related_player_id : Option Int := none
  player_name : Option String := none
  related_player_name : Option String := none
  result : Option String := none
  info : Option String := none
  addition : Option String := none
  minute : Option Int := none
  extra_minute : Option Int := none
  injured : Option JVal := none
  on_bench : Option JVal := none
  coach_id : Option Int := none
  sub_type_id : Option Int := none
  detailed_period_id : Option Int := none
  sort_order : Option Int := none
  type : Option TypIn := none
  period : Option PeriodIn := none
  player : Option PlayerIn := none
deriving DecidableEq

/-- An `events` row (`esection` models the `section` column). -/
structure EventRow where
  fixture_id : Option Int
  period_id : Option Int
  participant_id : Option Int
  type_id : Option Int
  esection : Option String
  player_id : Option Int
  related_player_id : Option Int
  player_name : Option String
  related_player_name : Option String
  result : Option String
  info : Option String
  addition : Option String
  minute : Option Int
  extra_minute : Option Int
  injured : SqlVal
  on_bench : SqlVal
  coach_id : Option Int
  sub_type_id : Option Int
  detailed_period_id : Option Int
  sort_order : Option Int
deriving DecidableEq

/-- The `data` sub-dict of a statistics entry. -/
structure StatDataIn where
  value : Option Int := none
deriving DecidableEq

/-- One entry of a fixture's `statistics` list. -/
structure StatIn where
  id : Option Int := none
  fixture_id : Option Int := none
  participant_id : Option Int := none
  type_id : Option Int := none
  location : Option String := none
  data : Option StatDataIn := none
  type : Option TypIn := none
deriving DecidableEq

/-- A `fixture_team_stats` row (its `id` key is `AUTOINCREMENT`). -/
structure FTSRow where
  fixture_id : Option Int
  team_id : Option Int
  stat_type_id : Option Int
  value : Option Int
  location : Option String
deriving DecidableEq

/-- The `sideline` sub-dict of a sidelined entry. -/
structure SidelineIn where
  id : Option Int := none
  player_id : Option Int := none
  type_id : Option Int := none
  category : Option String := none
  team_id : Option Int := none
  season_id : Option Int := none
  start_date : Option String := none
  end_date : Option String := none
  games_missed : Option Int := none
  completed : Option JVal := none
  type : Option TypIn := none
  player : Option PlayerIn := none
deriving DecidableEq

/-- A `sidelines` row. -/
structure SidelineRow where
  player_id : Option Int
  type_id : Option Int
  category : Option String
  team_id : Option Int
  season_id : Option Int
  start_date : Option String
  end_date : Option String
  games_missed : Option Int
  completed : SqlVal
deriving DecidableEq

/-- One entry of a fixture's `sidelined` list. -/
structure SidelinedIn where
  id : Option Int := none
  fixture_id : Option Int := none
  sideline_id : Option Int := none
  participant_id : Option Int := none
  sideline : Option SidelineIn := none
deriving DecidableEq

/-- A `fixture_sidelines` row. -/
structure FixtureSidelineRow where
  fixture_id : Option Int
  sideline_id : Option Int
  participant_id : Option Int
deriving DecidableEq

/-- The `temperature` / `feels_like` sub-dict of a weather report. -/
structure TempIn where
  day : Option Int := none
  morning : Option Int := none
  evening : Option Int := none
  night : Option Int := none
deriving DecidableEq

/-- The `wind` sub-dict of a weather report. -/
structure WindIn where
  speed : Option Int := none
  direction : Option Int := none
deriving DecidableEq

/-- The `current` sub-dict of a weather report. -/
structure CurrentIn where
  temp : Option Int := none
  wind : Option Int := none
  clouds : Option String := none
  humidity : Option String := none
  pressure : Option Int := none
  direction : Option Int := none
  feels_like : Option Int := none
  description : Option String := none
deriving DecidableEq

/-- The `weatherreport` sub-dict of a fixture. -/
structure WeatherIn where
  id : Option Int := none
  fixture_id : Option Int := none
  venue_id : Option Int := none
  temperature : Option TempIn := none
  feels_like : Option TempIn := none
  wind : Option WindIn := none
  current : Option CurrentIn := none
  humidity : Option String := none
  pressure : Option Int := none
  clouds : Option String := none
  description : Option String := none
  icon : Option String := none
  type : Option String := none
  metric : Option String := none
deriving DecidableEq

/-- A `weather_reports` row. -/
structure WeatherRow where
  fixture_id : Option Int
  venue_id : Option Int
  temperature_day : Option Int
  temperature_morning : Option Int
  temperature_evening : Option Int
  temperature_night : Option Int
  feels_like_day : Option Int
  feels_like_morning : Option Int
  feels_like_evening : Option Int
  feels_like_night : Option Int
  wind_speed : Option Int
  wind_direction : Option Int
  humidity : Option String
  pressure : Option Int
  clouds : Option String
  description : Option String
  icon : Option String
  type : Option String
  metric : Option String
  current_temp : Option Int
  current_wind : Option Int
  current_clouds : Option String
  current_humidity : Option String
  current_pressure : Option Int
  current_direction : Option Int
  current_feels_like : Option Int
  current_description : Option String
deriving DecidableEq

/-- A fixture's `statistics` value: a well-formed list, or a truthy non-list
value (over which the source's `for` loop raises `TypeError`). -/
inductive StatsField where
  | ok (l : List StatIn) : StatsField
  | malformed : StatsField
deriving DecidableEq

/-- A full fixture payload (`insert_or_update_fixture` input). -/
structure FixtureIn where
  id : Option Int := none
  sport_id : Option Int := none
  league_id : Option Int := none
  season_id : Option Int := none
  stage_id : Option Int := none
  group_id : Option Int := none
  aggregate_id : Option Int := none
  round_id : Option Int := none
  state_id : Option Int := none
  venue_id : Option Int := none
  name : Option String := none
  starting_at : Option String := none
  result_info : Option String := none
  leg : Option String := none
  details : Option String := none
  length : Option Int := none
  placeholder : Option JVal := none
  has_odds : Option JVal := none
  starting_at_timestamp : Option Int := none
  league : Option LeagueIn := none
  venue : Option VenueIn := none
  state : Option StateIn := none
  participants : Option (List TeamIn) := none
  scores : Option (List ScoreIn) := none
  events : Option (List EventIn) := none
  statistics : Option StatsField := none
  sidelined : Option (List SidelinedIn) := none
  weatherreport : Option WeatherIn := none
deriving DecidableEq

/-- The persistent store: one keyed row list per table the embedded
operations touch, plus the `metadata` key-value table. -/
@[ext]
structure DBState where
  continents : List (Int × ContinentRow) := []
  cities : List (Int × CityRow) := []
  states : List (Int × StateRow) := []
  venues : List (Int × VenueRow) := []
  leagues : List (Int × LeagueRow) := []
  teams : List (Int × TeamRow) := []
  players : List (Int × PlayerRow) := []
  team_squad : List ((Int × Int × Int) × SquadRow) := []
  player_stat_detail : List ((Int × Int × Int) × PlayerStatRow) := []
  fixtures : List (Int × FixtureRow) := []
  fixture_participants : List ((Option Int × Option Int) × FPRow) := []
  scores : List (Int × ScoreRow) := []
  event_types : List (Int × TypRow) := []
  periods : List (Int × PeriodRow) := []
  events : List (Int × EventRow) := []
  stat_types : List (Int × TypRow) := []
  fixture_team_stats : List (Int × FTSRow) := []
  sideline_types : List (Int × TypRow) := []
  sidelines : List (Int × SidelineRow) := []
  fixture_sidelines : List (Int × FixtureSidelineRow) := []
  weather_reports : List (Int × WeatherRow) := []
  metadata : List (String × String) := []
deriving DecidableEq

/-- The freshly created (empty) database. -/
def DBState.empty : DBState := {}

/-- Errors the embedded operations can surface: a Python `KeyError` on a
mandatory dictionary access (the spec's `MissingKeyError` when the field is
an identity field), the `TypeError` raised by iterating a non-list (the
spec's `MalformedPayloadError`), and the `sqlite3.OperationalError`
("table <tbl> has no column named <column>", carrying the first unknown
column) raised at statement preparation when an `INSERT` names a column
that `create_tables` never defined. -/
inductive DbErr where
  | keyError (field : String) : DbErr
  | malformedPayload : DbErr
  | operationalError (tbl : String) (column : String) : DbErr
deriving DecidableEq

/-! ## Standalone entity upserts

Each mirrors one `insert_or_update_*` method.  The source commits once at the
end of each method; commits are modelled as no-ops, and a write is applied to
the state as soon as the corresponding `execute` runs (an exception leaves the
already-executed writes on the connection). -/

/-- `insert_or_update_continents`: `INSERT OR REPLACE INTO continents
(id, name, code)` with `continent['id']` and `continent['name']` mandatory. -/
def insert_or_update_continents (cs : List ContinentIn) (st : DBState) :
    DBState × Option DbErr :=
  match cs with
  | [] => (st, none)
  | c :: rest =>
    match c.id with
    | none => (st, some (.keyError "id"))
    | some i =>
      match c.name with
      | none => (st, some (.keyError "name"))
      | some nm =>
        insert_or_update_continents rest
          { st with continents := upsertId (some i) ⟨nm, c.code⟩ st.continents }

/-- The row the `states` `INSERT` writes (all values read with `.get`). -/
def stateRowOf (s : StateIn) : StateRow :=
  { state := s.state, name := s.name, short_name := s.short_name,
    developer_name := s.developer_name }

/-- `insert_or_update_states`: `INSERT OR REPLACE INTO states (id, state,
name, short_name, developer_name)`; every field, the id included, is read
with `.get`, so no input can make it fail. -/
def insert_or_update_states (ss : List StateIn) (st : DBState) : DBState :=
  match ss with
  | [] => st
  | s :: rest =>
      insert_or_update_states rest
        { st with states := upsertId s.id (stateRowOf s) st.states }

/-- `insert_or_update_cities`: `INSERT OR REPLACE INTO cities (id, name,
region_id, country_id)` with `city['id']` and `city['name']` mandatory. -/
def insert_or_update_cities (cs : List CityIn) (st : DBState) :
    DBState × Option DbErr :=
  match cs with
  | [] => (st, none)
  | c :: rest =>
    match c.id with
    | none => (st, some (.keyError "id"))
    | some i =>
      match c.name with
      | none => (st, some (.keyError "name"))
      | some nm =>
        insert_or_update_cities rest
          { st with cities :=
              upsertId (some i) ⟨nm, c.region_id, c.country_id⟩ st.cities }

/-- The `city_id` value of the standalone venue `INSERT`:
`venue.get('city_id') or (venue['city']['id'] if 'city' in venue and
venue['city'] else None)` — note Python `or` takes the fallback when
`city_id` is `None` *or* `0`. -/
def venueCityId (v : VenueIn) : Option Int :=
  match v.city_id with
  | some x => if x != 0 then some x else v.city.bind CityIn.id
  | none => v.city.bind CityIn.id

/-- The row the standalone venue `INSERT` writes: eight listed columns; the
columns the statement does not list (`zipcode`, `surface`, `image_path`,
`city_name`, `national_team`) become NULL in the replaced row. -/
def standaloneVenueRow (v : VenueIn) (nm : String) : VenueRow :=
  { name := some nm, city_id := venueCityId v,
    country_id := v.country_id, capacity := v.capacity,
    address := v.address, zipcode := none,
    latitude := v.latitude, longitude := v.longitude,
    surface := none, image_path := none, city_name := none,
    national_team := .vnull }

/-- `insert_or_update_venues`: per venue, first `INSERT OR IGNORE` the
embedded `city` sub-dict into `cities` (when present and truthy), then
`INSERT OR REPLACE INTO venues (id, name, city_id, country_id, capacity,
address, latitude, longitude)`; the columns that statement does not list
(`zipcode`, `surface`, `image_path`, `city_name`, `national_team`) become
NULL in the replaced row. -/
def insert_or_update_venues (vs : List VenueIn) (st : DBState) :
    DBState × Option DbErr :=
  match vs with
  | [] => (st, none)
  | v :: rest =>
    let cityStep : DBState × Option DbErr :=
      match v.city with
      | none => (st, none)
      | some c =>
        match c.id with
        | none => (st, some (.keyError "id"))
        | some ci =>
          match c.name with
          | none => (st, some (.keyError "name"))
          | some cn =>
            let row : CityRow := ⟨cn, c.region_id, c.country_id⟩
            ({ st with cities := insertIgnoreId (some ci) row st.cities },
              none)
    match cityStep with
    | (st1, some e) => (st1, some e)
    | (st1, none) =>
      match v.id with
      | none => (st1, some (.keyError "id"))
      | some i =>
        match v.name with
        | none => (st1, some (.keyError "name"))
        | some nm =>
          insert_or_update_venues rest
            { st1 with venues :=
                upsertId (some i) (standaloneVenueRow v nm) st1.venues }

/-- `insert_or_update_teams`: `INSERT OR REPLACE INTO teams (id, name,
country_id, venue_id, short_code, founded, type, placeholder, gender,
logo_path)` with `team['id']` and `team['name']` mandatory and
`team.get('placeholder', 0)` passed through raw. -/
def insert_or_update_teams (ts : List TeamIn) (st : DBState) :
    DBState × Option DbErr :=
  match ts with
  | [] => (st, none)
  | t :: rest =>
    match t.id with
    | none => (st, some (.keyError "id"))
    | some i =>
      match t.name with
      | none => (st, some (.keyError "name"))
      | some nm =>
        let row : TeamRow :=
          { sport_id := none, country_id := t.country_id,
            venue_id := t.venue_id, name := some nm,
            short_code := t.short_code, founded := t.founded,
            type := t.type, placeholder := rawDefaultZero t.placeholder,
            gender := t.gender, logo_path := t.logo_path,
            image_path := none, last_played_at := none }
        insert_or_update_teams rest
          { st with teams := upsertId (some i) row st.teams }

/-- The squad-path statistics loop: per stat, `INSERT OR IGNORE INTO
stat_types (id, name, code)` (with `stat['type']`, `...['id']`, `...['name']`
mandatory) then `INSERT OR REPLACE INTO player_stat_detail` keyed
`(player_id, season_id, stat_type_id)` with `stat.get('value', 0)`. -/
def squadStats (pid season_id : Int) (stats : List PlayerStatIn)
    (st : DBState) : DBState × Option DbErr :=
  match stats with
  | [] => (st, none)
  | s :: rest =>
    match s.type with
    | none => (st, some (.keyError "type"))
    | some ty =>
      match ty.id with
      | none => (st, some (.keyError "id"))
      | some tid =>
        match ty.name with
        | none => (st, some (.keyError "name"))
        | some tnm =>
          let trow : TypRow :=
            { name := some tnm, code := ty.code, developer_name := none,
              model_type := none, stat_group := none }
          let srow : PlayerStatRow := ⟨rawDefaultZero s.value⟩
          let tbl := st.player_stat_detail
          let tbl1 := upsertBy (fun a b => a == b) (pid, season_id, tid) srow tbl
          squadStats pid season_id rest
            { st with
              stat_types := insertIgnoreId (some tid) trow st.stat_types,
              player_stat_detail := tbl1 }

/-- `insert_or_update_team_squad`: per entry, skip when `item.get('player',
{})` is falsy; otherwise `INSERT OR IGNORE` the player into `players` (with
`player['id']` and `player['name']` mandatory), `INSERT OR REPLACE INTO
team_squad` keyed `(team_id, season_id, player_id)`, and process the
player's `statistics` list when the key is present. -/
def insert_or_update_team_squad (team_id season_id : Int)
    (squad : List SquadItemIn) (st : DBState) : DBState × Option DbErr :=
  match squad with
  | [] => (st, none)
  | item :: rest =>
    match item.player with
    | none => insert_or_update_team_squad team_id season_id rest st
    | some pl =>
      match pl.id with
      | none => (st, some (.keyError "id"))
      | some pid =>
        match pl.name with
        | none => (st, some (.keyError "name"))
        | some pnm =>
          let prow : PlayerRow :=
            { sport_id := none, country_id := pl.country_id,
              nationality_id := none, city_id := none,
              position_id := pl.position_id, detailed_position_id := none,
              type_id := none, name := some pnm,
              common_name := pl.common_name, firstname := none,
              lastname := none, display_name := none,
              image_path := pl.image_path, height := pl.height,
              weight := pl.weight, date_of_birth := pl.date_of_birth,
              gender := none }
          let qrow : SquadRow :=
            ⟨item.jersey_number, rawDefaultZero item.on_loan⟩
          let st1 :=
            { st with players := insertIgnoreId (some pid) prow st.players }
          let sq1 := upsertBy (fun a b => a == b) (team_id, season_id, pid) qrow st1.team_squad
          let st2 := { st1 with team_squad := sq1 }
          match pl.statistics with
          | none => insert_or_update_team_squad team_id season_id rest st2
          | some stats =>
            match squadStats pid season_id stats st2 with
            | (st3, some e) => (st3, some e)
            | (st3, none) =>
              insert_or_update_team_squad team_id season_id rest st3

/-! ## Watermark tracker -/

/-- `get_last_update_time`: read the `metadata` value stored under the
synthetic key `"last_update_<entity_type>"`. -/
def get_last_update_time (entity_type : String) (st : DBState) :
    Option String :=
  (st.metadata.find? (fun r => r.1 == "last_update_" ++ entity_type)).map
    Prod.snd

/-- `set_last_update_time` with an explicit timestamp: `INSERT OR REPLACE
INTO metadata (key, value)` under `"last_update_<entity_type>"` (the
source's `timestamp=None` default, which reads the wall clock, is outside
this model). -/
def set_last_update_time (entity_type : String) (timestamp : String)
    (st : DBState) : DBState :=
  let key := "last_update_" ++ entity_type
  let md := upsertBy (fun a b => a == b) key timestamp st.metadata
  { st with metadata := md }

/-! ## The fixture orchestrator

`insert_or_update_fixture` is a straight line of `INSERT OR REPLACE`
statements driven by the payload's optional sub-objects.  It is embedded as
a reified list of write operations (`Wr`) in exactly the order the source
executes them — one list element per successfully prepared `execute` call —
plus an executor giving each operation its SQLite semantics.  A statement
naming a column absent from `create_tables`' schema raises
`OperationalError` at its execution point, emitting no write and aborting
the method; iterating a truthy non-list `statistics` value raises
`TypeError` before any statistics write.  Either way the method ends with
the writes executed so far applied and the error surfaced. -/

/-- One executed `INSERT OR REPLACE` statement of the fixture orchestrator:
the target table, the key value bound to its primary-key column(s), and the
values bound to the remaining columns. -/
inductive Wr where
  | fixtures (k : Option Int) (d : FixtureRow) : Wr
  | leagues (k : Option Int) (d : LeagueRow) : Wr
  | venues (k : Option Int) (d : VenueRow) : Wr
  | states (k : Option Int) (d : StateRow) : Wr
  | teams (k : Option Int) (d : TeamRow) : Wr
  | fixture_participants (k : Option Int × Option Int) (d : FPRow) : Wr
  | scores (k : Option Int) (d : ScoreRow) : Wr
  | event_types (k : Option Int) (d : TypRow) : Wr
  | periods (k : Option Int) (d : PeriodRow) : Wr
  | players (k : Option Int) (d : PlayerRow) : Wr
  | events (k : Option Int) (d : EventRow) : Wr
  | stat_types (k : Option Int) (d : TypRow) : Wr
  | fixture_team_stats (k : Option Int) (d : FTSRow) : Wr
  | fixture_sidelines (k : Option Int) (d : FixtureSidelineRow) : Wr
  | sideline_types (k : Option Int) (d : TypRow) : Wr
  | sidelines (k : Option Int) (d : SidelineRow) : Wr
  | weather_reports (k : Option Int) (d : WeatherRow) : Wr
deriving DecidableEq

/-- Apply one write to the store. -/
def execOne (op : Wr) (st : DBState) : DBState :=
  match op with
  | .fixtures k d => { st with fixtures := upsertId k d st.fixtures }
  | .leagues k d => { st with leagues := upsertId k d st.leagues }
  | .venues k d => { st with venues := upsertId k d st.venues }
  | .states k d => { st with states := upsertId k d st.states }
  | .teams k d => { st with teams := upsertId k d st.teams }
  | .fixture_participants k d =>
      { st with fixture_participants :=
          upsertBy fpConflict k d st.fixture_participants }
  | .scores k d => { st with scores := upsertId k d st.scores }
  | .event_types k d => { st with event_types := upsertId k d st.event_types }
  | .periods k d => { st with periods := upsertId k d st.periods }
  | .players k d => { st with players := upsertId k d st.players }
  | .events k d => { st with events := upsertId k d st.events }
  | .stat_types k d => { st with stat_types := upsertId k d st.stat_types }
  | .fixture_team_stats k d =>
      { st with fixture_team_stats := upsertId k d st.fixture_team_stats }
  | .fixture_sidelines k d =>
      { st with fixture_sidelines := upsertId k d st.fixture_sidelines }
  | .sideline_types k d =>
      { st with sideline_types := upsertId k d st.sideline_types }
  | .sidelines k d => { st with sidelines := upsertId k d st.sidelines }
  | .weather_reports k d =>
      { st with weather_reports := upsertId k d st.weather_reports }

/-- Apply a list of writes in order. -/
def exec (ws : List Wr) (st : DBState) : DBState :=
  ws.foldl (fun s op => execOne op s) st

/-- The fixture row (`placeholder` / `has_odds` normalised by truthiness). -/
def fixtureRowOf (p : FixtureIn) : FixtureRow :=
  { sport_id := p.sport_id, league_id := p.league_id,
    season_id := p.season_id, stage_id := p.stage_id,
    group_id := p.group_id, aggregate_id := p.aggregate_id,
    round_id := p.round_id, state_id := p.state_id, venue_id := p.venue_id,
    name := p.name, starting_at := p.starting_at,
    result_info := p.result_info, leg := p.leg, details := p.details,
    length := p.length, placeholder := flag p.placeholder,
    has_odds := flag p.has_odds,
    starting_at_timestamp := p.starting_at_timestamp }

/-- The fixture-path league row. -/
def leagueRowOf (l : LeagueIn) : LeagueRow :=
  { sport_id := l.sport_id, country_id := l.country_id, name := l.name,
    active := flag l.active, short_code := l.short_code,
    image_path := l.image_path, type := l.type, sub_type := l.sub_type,
    last_played_at := l.last_played_at, category := l.category,
    has_jerseys := flag l.has_jerseys }

/-- The fixture-path venue row (every value read with `.get`; the `surface`
and `zipcode` columns are written here, `logo_path`-style extras are not). -/
def venueRowFx (v : VenueIn) : VenueRow :=
  { name := v.name, city_id := v.city_id, country_id := v.country_id,
    capacity := v.capacity, address := v.address, zipcode := v.zipcode,
    latitude := v.latitude, longitude := v.longitude, surface := v.surface,
    image_path := v.image_path, city_name := v.city_name,
    national_team := flag v.national_team }

/-- The fixture-path participant team row. -/
def teamRowFx (t : TeamIn) : TeamRow :=
  { sport_id := t.sport_id, country_id := t.country_id,
    venue_id := t.venue_id, name := t.name, short_code := t.short_code,
    founded := t.founded, type := t.type,
    placeholder := flag t.placeholder, gender := t.gender,
    logo_path := none, image_path := t.image_path,
    last_played_at := t.last_played_at }

/-- The participant-link row, read from `participant.get('meta', {})`. -/
def fpRowOf (t : TeamIn) : FPRow :=
  { location := t.meta.bind MetaIn.location,
    winner := flag (t.meta.bind MetaIn.winner),
    position := t.meta.bind MetaIn.position }

/-- The scores row (`goals` / `participant` from `score.get('score', {})`). -/
def scoreRowOf (s : ScoreIn) : ScoreRow :=
  { fixture_id := s.fixture_id, type_id := s.type_id,
    participant_id := s.participant_id,
    goals := s.score.bind ScoreSubIn.goals,
    participant := s.score.bind ScoreSubIn.participant,
    description := s.description }

/-- The row shared by `event_types`, `stat_types` and `sideline_types`. -/
def typRowOf (t : TypIn) : TypRow :=
  { name := t.name, code := t.code, developer_name := t.developer_name,
    model_type := t.model_type, stat_group := t.stat_group }

/-- The periods row. -/
def periodRowOf (pd : PeriodIn) : PeriodRow :=
  { fixture_id := pd.fixture_id, type_id := pd.type_id,
    started := pd.started, ended := pd.ended,
    counts_from := pd.counts_from, ticking := flag pd.ticking,
    sort_order := pd.sort_order, description := pd.description,
    time_added := pd.time_added, period_length := pd.period_length,
    minutes := pd.minutes, seconds := pd.seconds,
    has_timer := flag pd.has_timer }

/-- The fixture-path (18-column) player row. -/
def playerRowFx (pl : PlayerIn) : PlayerRow :=
  { sport_id := pl.sport_id, country_id := pl.country_id,
    nationality_id := pl.nationality_id, city_id := pl.city_id,
    position_id := pl.position_id,
    detailed_position_id := pl.detailed_position_id,
    type_id := pl.type_id, name := pl.name, common_name := pl.common_name,
    firstname := pl.firstname, lastname := pl.lastname,
    display_name := pl.display_name, image_path := pl.image_path,
    height := pl.height, weight := pl.weight,
    date_of_birth := pl.date_of_birth, gender := pl.gender }

/-- The events row. -/
def eventRowOf (e : EventIn) : EventRow :=
  { fixture_id := e.fixture_id, period_id := e.period_id,
    participant_id := e.participant_id, type_id := e.type_id,
    esection := e.esection, player_id := e.player_id,
    related_player_id := e.related_player_id,
    player_name := e.player_name,
    related_player_name := e.related_player_name, result := e.result,
    info := e.info, addition := e.addition, minute := e.minute,
    extra_minute := e.extra_minute, injured := flag e.injured,
    on_bench := flag e.on_bench, coach_id := e.coach_id,
    sub_type_id := e.sub_type_id,
    detailed_period_id := e.detailed_period_id,
    sort_order := e.sort_order }

/-- The `fixture_team_stats` row (`value` from `stat.get('data',
{}).get('value')`, `team_id` from `stat.get('participant_id')`). -/
def ftsRowOf (s : StatIn) : FTSRow :=
  { fixture_id := s.fixture_id, team_id := s.participant_id,
    stat_type_id := s.type_id, value := s.data.bind StatDataIn.value,
    location := s.location }

/-- The `fixture_sidelines` row. -/
def fsRowOf (sd : SidelinedIn) : FixtureSidelineRow :=
  { fixture_id := sd.fixture_id, sideline_id := sd.sideline_id,
    participant_id := sd.participant_id }

/-- The `sidelines` row. -/
def sidelineRowOf (sl : SidelineIn) : SidelineRow :=
  { player_id := sl.player_id, type_id := sl.type_id,
    category := sl.category, team_id := sl.team_id,
    season_id := sl.season_id, start_date := sl.start_date,
    end_date := sl.end_date, games_missed := sl.games_missed,
    completed := flag sl.completed }

/-- The flattened `weather_reports` row (`temperature`, `feels_like`,
`wind`, `current` sub-dicts read with `.get(..., {})`). -/
def weatherRowOf (w : WeatherIn) : WeatherRow :=
  { fixture_id := w.fixture_id, venue_id := w.venue_id,
    temperature_day := w.temperature.bind TempIn.day,
    temperature_morning := w.temperature.bind TempIn.morning,
    temperature_evening := w.temperature.bind TempIn.evening,
    temperature_night := w.temperature.bind TempIn.night,
    feels_like_day := w.feels_like.bind TempIn.day,
    feels_like_morning := w.feels_like.bind TempIn.morning,
    feels_like_evening := w.feels_like.bind TempIn.evening,
    feels_like_night := w.feels_like.bind TempIn.night,
    wind_speed := w.wind.bind WindIn.speed,
    wind_direction := w.wind.bind WindIn.direction,
    humidity := w.humidity, pressure := w.pressure, clouds := w.clouds,
    description := w.description, icon := w.icon, type := w.type,
    metric := w.metric, current_temp := w.current.bind CurrentIn.temp,
    current_wind := w.current.bind CurrentIn.wind,
    current_clouds := w.current.bind CurrentIn.clouds,
    current_humidity := w.current.bind CurrentIn.humidity,
    current_pressure := w.current.bind CurrentIn.pressure,
    current_direction := w.current.bind CurrentIn.direction,
    current_feels_like := w.current.bind CurrentIn.feels_like,
    current_description := w.current.bind CurrentIn.description }

/-! Four fixture-path statements name columns that `create_tables` never
defines, so SQLite rejects them at preparation time
(`sqlite3.OperationalError: table <tbl> has no column named <column>`,
reporting the first unknown column) before binding any value: the league
insert (`short_code`, also `image_path`), the venue insert (`zipcode`),
the participant team insert (`image_path`) and the player insert
(`sport_id`, also `city_id`).  Each aborts the method, so the generators
below pair the writes a phase actually executes with the error that cuts
it short, and `opsSeq` strings phases together, discarding everything
after the first error — exactly the behaviour of straight-line Python with
no exception handler. -/

/-- Sequence two phases: an aborted phase discards everything after it. -/
def opsSeq (a b : List Wr × Option DbErr) : List Wr × Option DbErr :=
  match a.2 with
  | some e => (a.1, some e)
  | none => (a.1 ++ b.1, b.2)

@[simp] theorem opsSeq_none (xs : List Wr) (b : List Wr × Option DbErr) :
    opsSeq (xs, none) b = (xs ++ b.1, b.2) := rfl

@[simp] theorem opsSeq_some (xs : List Wr) (e : DbErr)
    (b : List Wr × Option DbErr) : opsSeq (xs, some e) b = (xs, some e) := rfl

/-- The `league` branch: its `INSERT` lists `short_code` (and `image_path`),
absent from the `leagues` schema, so a present league aborts the method
with nothing written.  `leagueRowOf` above shows the values it would have
bound. -/
def leagueOps (p : FixtureIn) : List Wr × Option DbErr :=
  match p.league with
  | some _ => ([], some (.operationalError "leagues" "short_code"))
  | none => ([], none)

/-- The `venue` branch: the fixture-path venue `INSERT` lists `zipcode`,
absent from the `venues` schema. -/
def venueOps (p : FixtureIn) : List Wr × Option DbErr :=
  match p.venue with
  | some _ => ([], some (.operationalError "venues" "zipcode"))
  | none => ([], none)

/-- Writes of the `state` branch (its statement is schema-valid). -/
def stateOps (p : FixtureIn) : List Wr :=
  match p.state with
  | some s => [.states s.id (stateRowOf s)]
  | none => []

/-- The `participants` loop: its first statement, the team `INSERT`, lists
`image_path`, absent from the `teams` schema, so the first participant
aborts the loop before its team row — and hence before any
`fixture_participants` link — is written. -/
def participantOps (p : FixtureIn) : List Wr × Option DbErr :=
  match p.participants with
  | some (_ :: _) => ([], some (.operationalError "teams" "image_path"))
  | _ => ([], none)

/-- Writes of the `scores` loop (schema-valid). -/
def scoreOps (p : FixtureIn) : List Wr :=
  match p.scores with
  | some l => l.map fun s => .scores s.id (scoreRowOf s)
  | none => []

/-- The embedded type/period writes of one event, in source order (the
player branch would follow; see `eventOpsOne`). -/
def eventSubOps (e : EventIn) : List Wr :=
  (match e.type with
   | some t => [.event_types t.id (typRowOf t)]
   | none => []) ++
  (match e.period with
   | some pd => [.periods pd.id (periodRowOf pd)]
   | none => [])

/-- One event: the type and period sub-records are written, then a present
`player` sub-dict hits the player `INSERT`, which lists `sport_id` (and
`city_id`), absent from the `players` schema — the event row is never
reached; without a player, the event row follows its sub-records. -/
def eventOpsOne (e : EventIn) : List Wr × Option DbErr :=
  match e.player with
  | some _ => (eventSubOps e, some (.operationalError "players" "sport_id"))
  | none => (eventSubOps e ++ [.events e.id (eventRowOf e)], none)

/-- The `events` loop: events in order, stopping at the first aborted one. -/
def eventOpsList : List EventIn → List Wr × Option DbErr
  | [] => ([], none)
  | e :: rest => opsSeq (eventOpsOne e) (eventOpsList rest)

/-- All writes of one statistics entry: its stat type, then the team stat
(whose `id` key is the `AUTOINCREMENT` `fixture_team_stats.id`); both
statements are schema-valid. -/
def statOpsOne (s : StatIn) : List Wr :=
  (match s.type with
   | some t => [.stat_types t.id (typRowOf t)]
   | none => []) ++
  [.fixture_team_stats s.id (ftsRowOf s)]

/-- Writes of a well-formed `statistics` list. -/
def statOps (l : List StatIn) : List Wr :=
  l.flatMap statOpsOne

/-- The statistics phase: skipped when absent, aborted by `TypeError` (the
spec's `MalformedPayloadError`) before any write when the value is a
truthy non-list, otherwise the list's writes. -/
def statPhase (p : FixtureIn) : List Wr × Option DbErr :=
  match p.statistics with
  | some .malformed => ([], some .malformedPayload)
  | some (.ok l) => (statOps l, none)
  | none => ([], none)

/-- One sidelined entry: the fixture-sideline link first, then — inside a
present `sideline` sub-dict — its type; a present embedded player then hits
the schema-broken player `INSERT` (`sport_id`), aborting before the
sideline row; otherwise the sideline row closes the entry. -/
def sidelinedOpsOne (sd : SidelinedIn) : List Wr × Option DbErr :=
  match sd.sideline with
  | none => ([.fixture_sidelines sd.id (fsRowOf sd)], none)
  | some sl =>
    match sl.player with
    | some _ =>
      (.fixture_sidelines sd.id (fsRowOf sd) ::
        (match sl.type with
         | some t => [.sideline_types t.id (typRowOf t)]
         | none => []),
       some (.operationalError "players" "sport_id"))
    | none =>
      (.fixture_sidelines sd.id (fsRowOf sd) ::
        ((match sl.type with
          | some t => [.sideline_types t.id (typRowOf t)]
          | none => []) ++ [.sidelines sl.id (sidelineRowOf sl)]), none)

/-- The `sidelined` loop: entries in order, stopping at the first aborted
one. -/
def sidelinedOpsList : List SidelinedIn → List Wr × Option DbErr
  | [] => ([], none)
  | sd :: rest => opsSeq (sidelinedOpsOne sd) (sidelinedOpsList rest)

/-- Writes of the `weatherreport` branch (schema-valid). -/
def weatherOps (p : FixtureIn) : List Wr :=
  match p.weatherreport with
  | some w => [.weather_reports w.id (weatherRowOf w)]
  | none => []

/-- The ordered writes `insert_or_update_fixture` executes for a payload
and the error that aborts it, if any: the fixture row first, then the
league, venue, state, participants, scores, events, statistics, sidelined
and weather phases, cut short at the first raising statement. -/
def fixtureOps (p : FixtureIn) : List Wr × Option DbErr :=
  opsSeq ([.fixtures p.id (fixtureRowOf p)], none)
    (opsSeq (leagueOps p)
      (opsSeq (venueOps p)
        (opsSeq (stateOps p, none)
          (opsSeq (participantOps p)
            (opsSeq (scoreOps p, none)
              (opsSeq (eventOpsList (p.events.getD []))
                (opsSeq (statPhase p)
                  (opsSeq (sidelinedOpsList (p.sidelined.getD []))
                    (weatherOps p, none)))))))))

/-- `insert_or_update_fixture`: execute the payload's writes in order and
surface the error, if any. -/
def insert_or_update_fixture (p : FixtureIn) (st : DBState) :
    DBState × Option DbErr :=
  (exec (fixtureOps p).1 st, (fixtureOps p).2)

/-- `insert_or_update_fixtures`: a plain loop over the payloads; an
exception raised for one fixture propagates out of the loop, so the
remaining payloads are not processed and no summary is produced. -/
def insert_or_update_fixtures (ps : List FixtureIn) (st : DBState) :
    DBState × Option DbErr :=
  match ps with
  | [] => (st, none)
  | p :: rest =>
    match insert_or_update_fixture p st with
    | (st', some e) => (st', some e)
    | (st', none) => insert_or_update_fixtures rest st'

/-! ## Per-table characterisation of the executor

`exec` touches each table independently: its effect on a table is the fold
of that table's own write subsequence.  One projection and one lemma per
table. -/

@[simp] theorem exec_nil (st : DBState) : exec [] st = st := rfl

@[simp] theorem exec_cons (op : Wr) (ws : List Wr) (st : DBState) :
    exec (op :: ws) st = exec ws (execOne op st) := rfl

/-- The writes of a list that target `fixtures`. -/
def opsFixtures (ws : List Wr) : List (Option Int × FixtureRow) :=
  ws.filterMap fun op => match op with
    | .fixtures k d => some (k, d)
    | _ => none

theorem exec_fixtures_eq (ws : List Wr) :
    ∀ st, (exec ws st).fixtures = applyId (opsFixtures ws) st.fixtures := by
  induction ws with
  | nil => intro st; rfl
  | cons op ws ih =>
    intro st
    cases op <;> simp [execOne, opsFixtures, List.filterMap_cons, ih]

/-- The writes of a list that target `leagues`. -/
def opsLeagues (ws : List Wr) : List (Option Int × LeagueRow) :=
  ws.filterMap fun op => match op with
    | .leagues k d => some (k, d)
    | _ => none

theorem exec_leagues_eq (ws : List Wr) :
    ∀ st, (exec ws st).leagues = applyId (opsLeagues ws) st.leagues := by
  induction ws with
  | nil => intro st; rfl
  | cons op ws ih =>
    intro st
    cases op <;> simp [execOne, opsLeagues, List.filterMap_cons, ih]

/-- The writes of a list that target `venues`. -/
def opsVenues (ws : List Wr) : List (Option Int × VenueRow) :=
  ws.filterMap fun op => match op with
    | .venues k d => some (k, d)
    | _ => none

theorem exec_venues_eq (ws : List Wr) :
    ∀ st, (exec ws st).venues = applyId (opsVenues ws) st.venues := by
  induction ws with
  | nil => intro st; rfl
  | cons op ws ih =>
    intro st
    cases op <;> simp [execOne, opsVenues, List.filterMap_cons, ih]

/-- The writes of a list that target `states`. -/
def opsStates (ws : List Wr) : List (Option Int × StateRow) :=
  ws.filterMap fun op => match op with
    | .states k d => some (k, d)
    | _ => none

theorem exec_states_eq (ws : List Wr) :
    ∀ st, (exec ws st).states = applyId (opsStates ws) st.states := by
  induction ws with
  | nil => intro st; rfl
  | cons op ws ih =>
    intro st
    cases op <;> simp [execOne, opsStates, List.filterMap_cons, ih]

/-- The writes of a list that target `teams`. -/
def opsTeams (ws : List Wr) : List (Option Int × TeamRow) :=
  ws.filterMap fun op => match op with
    | .teams k d => some (k, d)
    | _ => none

theorem exec_teams_eq (ws : List Wr) :
    ∀ st, (exec ws st).teams = applyId (opsTeams ws) st.teams := by
  induction ws with
  | nil => intro st; rfl
  | cons op ws ih =>
    intro st
    cases op <;> simp [execOne, opsTeams, List.filterMap_cons, ih]

/-- The writes of a list that target `scores`. -/
def opsScores (ws : List Wr) : List (Option Int × ScoreRow) :=
  ws.filterMap fun op => match op with
    | .scores k d => some (k, d)
    | _ => none

theorem exec_scores_eq (ws : List Wr) :
    ∀ st, (exec ws st).scores = applyId (opsScores ws) st.scores := by
  induction ws with
  | nil => intro st; rfl
  | cons op ws ih =>
    intro st
    cases op <;> simp [execOne, opsScores, List.filterMap_cons, ih]

/-- The writes of a list that target `event_types`. -/
def opsEventTypes (ws : List Wr) : List (Option Int × TypRow) :=
  ws.filterMap fun op => match op with
    | .event_types k d => some (k, d)
    | _ => none

theorem exec_event_types_eq (ws : List Wr) :
    ∀ st, (exec ws st).event_types = applyId (opsEventTypes ws) st.event_types := by
  induction ws with
  | nil => intro st; rfl
  | cons op ws ih =>
    intro st
    cases op <;> simp [execOne, opsEventTypes, List.filterMap_cons, ih]

/-- The writes of a list that target `periods`. -/
def opsPeriods (ws : List Wr) : List (Option Int × PeriodRow) :=
  ws.filterMap fun op => match op with
    | .periods k d => some (k, d)
    | _ => none

theorem exec_periods_eq (ws : List Wr) :
    ∀ st, (exec ws st).periods = applyId (opsPeriods ws) st.periods := by
  induction ws with
  | nil => intro st; rfl
  | cons op ws ih =>
    intro st
    cases op <;> simp [execOne, opsPeriods, List.filterMap_cons, ih]

/-- The writes of a list that target `players`. -/
def opsPlayers (ws : List Wr) : List (Option Int × PlayerRow) :=
  ws.filterMap fun op => match op with
    | .players k d => some (k, d)
    | _ => none

theorem exec_players_eq (ws : List Wr) :
    ∀ st, (exec ws st).players = applyId (opsPlayers ws) st.players := by
  induction ws with
  | nil => intro st; rfl
  | cons op ws ih =>
    intro st
    cases op <;> simp [execOne, opsPlayers, List.filterMap_cons, ih]

/-- The writes of a list that target `events`. -/
def opsEvents (ws : List Wr) : List (Option Int × EventRow) :=
  ws.filterMap fun op => match op with
    | .events k d => some (k, d)
    | _ => none

theorem exec_events_eq (ws : List Wr) :
    ∀ st, (exec ws st).events = applyId (opsEvents ws) st.events := by
  induction ws with
  | nil => intro st; rfl
  | cons op ws ih =>
    intro st
    cases op <;> simp [execOne, opsEvents, List.filterMap_cons, ih]

/-- The writes of a list that target `stat_types`. -/
def opsStatTypes (ws : List Wr) : List (Option Int × TypRow) :=
  ws.filterMap fun op => match op with
    | .stat_types k d => some (k, d)
    | _ => none

theorem exec_stat_types_eq (ws : List Wr) :
    ∀ st, (exec ws st).stat_types = applyId (opsStatTypes ws) st.stat_types := by
  induction ws with
  | nil => intro st; rfl
  | cons op ws ih =>
    intro st
    cases op <;> simp [execOne, opsStatTypes, List.filterMap_cons, ih]

/-- The writes of a list that target `fixture_team_stats`. -/
def opsFTS (ws : List Wr) : List (Option Int × FTSRow) :=
  ws.filterMap fun op => match op with
    | .fixture_team_stats k d => some (k, d)
    | _ => none

theorem exec_fixture_team_stats_eq (ws : List Wr) :
    ∀ st, (exec ws st).fixture_team_stats = applyId (opsFTS ws) st.fixture_team_stats := by
  induction ws with
  | nil => intro st; rfl
  | cons op ws ih =>
    intro st
    cases op <;> simp [execOne, opsFTS, List.filterMap_cons, ih]

/-- The writes of a list that target `fixture_sidelines`. -/
def opsFS (ws : List Wr) : List (Option Int × FixtureSidelineRow) :=
  ws.filterMap fun op => match op with
    | .fixture_sidelines k d => some (k, d)
    | _ => none

theorem exec_fixture_sidelines_eq (ws : List Wr) :
    ∀ st, (exec ws st).fixture_sidelines = applyId (opsFS ws) st.fixture_sidelines := by
  induction ws with
  | nil => intro st; rfl
  | cons op ws ih =>
    intro st
    cases op <;> simp [execOne, opsFS, List.filterMap_cons, ih]

/-- The writes of a list that target `sideline_types`. -/
def opsSidelineTypes (ws : List Wr) : List (Option Int × TypRow) :=
  ws.filterMap fun op => match op with
    | .sideline_types k d => some (k, d)
    | _ => none

theorem exec_sideline_types_eq (ws : List Wr) :
    ∀ st, (exec ws st).sideline_types = applyId (opsSidelineTypes ws) st.sideline_types := by
  induction ws with
  | nil => intro st; rfl
  | cons op ws ih =>
    intro st
    cases op <;> simp [execOne, opsSidelineTypes, List.filterMap_cons, ih]

/-- The writes of a list that target `sidelines`. -/
def opsSidelines (ws : List Wr) : List (Option Int × SidelineRow) :=
  ws.filterMap fun op => match op with
    | .sidelines k d => some (k, d)
    | _ => none

theorem exec_sidelines_eq (ws : List Wr) :
    ∀ st, (exec ws st).sidelines = applyId (opsSidelines ws) st.sidelines := by
  induction ws with
  | nil => intro st; rfl
  | cons op ws ih =>
    intro st
    cases op <;> simp [execOne, opsSidelines, List.filterMap_cons, ih]

/-- The writes of a list that target `weather_reports`. -/
def opsWeather (ws : List Wr) : List (Option Int × WeatherRow) :=
  ws.filterMap fun op => match op with
    | .weather_reports k d => some (k, d)
    | _ => none

theorem exec_weather_reports_eq (ws : List Wr) :
    ∀ st, (exec ws st).weather_reports = applyId (opsWeather ws) st.weather_reports := by
  induction ws with
  | nil => intro st; rfl
  | cons op ws ih =>
    intro st
    cases op <;> simp [execOne, opsWeather, List.filterMap_cons, ih]

/-- The writes of a list that target `fixture_participants`. -/
def opsFP (ws : List Wr) : List ((Option Int × Option Int) × FPRow) :=
  ws.filterMap fun op => match op with
    | .fixture_participants k d => some (k, d)
    | _ => none

theorem exec_fixture_participants_eq (ws : List Wr) :
    ∀ st, (exec ws st).fixture_participants =
      applyBy fpConflict (opsFP ws) st.fixture_participants := by
  induction ws with
  | nil => intro st; rfl
  | cons op ws ih =>
    intro st
    cases op <;> simp [execOne, opsFP, List.filterMap_cons, ih]

theorem exec_continents_eq (ws : List Wr) :
    ∀ st, (exec ws st).continents = st.continents := by
  induction ws with
  | nil => intro st; rfl
  | cons op ws ih =>
    intro st
    cases op <;> simp [execOne, ih]

theorem exec_cities_eq (ws : List Wr) :
    ∀ st, (exec ws st).cities = st.cities := by
  induction ws with
  | nil => intro st; rfl
  | cons op ws ih =>
    intro st
    cases op <;> simp [execOne, ih]

theorem exec_team_squad_eq (ws : List Wr) :
    ∀ st, (exec ws st).team_squad = st.team_squad := by
  induction ws with
  | nil => intro st; rfl
  | cons op ws ih =>
    intro st
    cases op <;> simp [execOne, ih]

theorem exec_player_stat_detail_eq (ws : List Wr) :
    ∀ st, (exec ws st).player_stat_detail = st.player_stat_detail := by
  induction ws with
  | nil => intro st; rfl
  | cons op ws ih =>
    intro st
    cases op <;> simp [execOne, ih]

theorem exec_metadata_eq (ws : List Wr) :
    ∀ st, (exec ws st).metadata = st.metadata := by
  induction ws with
  | nil => intro st; rfl
  | cons op ws ih =>
    intro st
    cases op <;> simp [execOne, ih]

/-! ## Keys and idempotence of the orchestrator -/

/-- Does a write bind a (fully) non-NULL value to its primary-key column(s)?
(A NULL id takes a fresh `AUTOINCREMENT`/rowid value on every execution, and
NULL composite-key components never conflict.) -/
def opKeyed : Wr → Bool
  | .fixtures k _ => k.isSome
  | .leagues k _ => k.isSome
  | .venues k _ => k.isSome
  | .states k _ => k.isSome
  | .teams k _ => k.isSome
  | .fixture_participants k _ => k.1.isSome && k.2.isSome
  | .scores k _ => k.isSome
  | .event_types k _ => k.isSome
  | .periods k _ => k.isSome
  | .players k _ => k.isSome
  | .events k _ => k.isSome
  | .stat_types k _ => k.isSome
  | .fixture_team_stats k _ => k.isSome
  | .fixture_sidelines k _ => k.isSome
  | .sideline_types k _ => k.isSome
  | .sidelines k _ => k.isSome
  | .weather_reports k _ => k.isSome

/-- Transport `opKeyed` through a table projection. -/
theorem proj_keys_some {β : Type} (f : Wr → Option (Option Int × β))
    (hf : ∀ op q, f op = some q → opKeyed op = true → q.1.isSome = true)
    (ws : List Wr) (h : ws.all opKeyed = true) :
    ∀ w ∈ ws.filterMap f, w.1.isSome = true := by
  intro w hw
  rcases List.mem_filterMap.1 hw with ⟨op, hop, hfop⟩
  exact hf op w hfop (List.all_eq_true.1 h op hop)

/-- Every fully keyed `fixture_participants` write conflicts with itself. -/
theorem opsFP_self_conflict (ws : List Wr) (h : ws.all opKeyed = true) :
    ∀ w ∈ opsFP ws, fpConflict w.1 w.1 = true := by
  intro w hw
  rcases List.mem_filterMap.1 hw with ⟨op, hop, hfop⟩
  have hk := List.all_eq_true.1 h op hop
  cases op <;> simp only [opKeyed] at hk <;> simp at hfop <;>
    (subst hfop; simp_all [fpConflict, beq_self_eq_true])

/-- **C1** (amended).  Ingesting the same fixture payload twice leaves the
store exactly as after one ingestion — identical row contents and no extra
rows in any table — provided every write of the payload carries its full
primary key.  (The unamended claim fails: a `statistics` entry without an
`id` makes the `fixture_team_stats` insert take a fresh `AUTOINCREMENT` id
on each run, see the counterexample.) -/
theorem fixture_ingest_idempotent (p : FixtureIn) (st : DBState)
    (hk : (fixtureOps p).1.all opKeyed = true) :
    (insert_or_update_fixture p (insert_or_update_fixture p st).1).1 =
      (insert_or_update_fixture p st).1 := by
  show exec (fixtureOps p).1 (exec (fixtureOps p).1 st) =
    exec (fixtureOps p).1 st
  apply DBState.ext
  · simp [exec_continents_eq]
  · simp [exec_cities_eq]
  · rw [exec_states_eq, exec_states_eq]
    exact applyId_idem _ _ (proj_keys_some _
      (by intro op q hq hkk; cases op <;> simp only [opKeyed] at hkk <;>
        simp at hq <;> (subst hq; simpa using hkk)) _ hk)
  · rw [exec_venues_eq, exec_venues_eq]
    exact applyId_idem _ _ (proj_keys_some _
      (by intro op q hq hkk; cases op <;> simp only [opKeyed] at hkk <;>
        simp at hq <;> (subst hq; simpa using hkk)) _ hk)
  · rw [exec_leagues_eq, exec_leagues_eq]
    exact applyId_idem _ _ (proj_keys_some _
      (by intro op q hq hkk; cases op <;> simp only [opKeyed] at hkk <;>
        simp at hq <;> (subst hq; simpa using hkk)) _ hk)
  · rw [exec_teams_eq, exec_teams_eq]
    exact applyId_idem _ _ (proj_keys_some _
      (by intro op q hq hkk; cases op <;> simp only [opKeyed] at hkk <;>
        simp at hq <;> (subst hq; simpa using hkk)) _ hk)
  · rw [exec_players_eq, exec_players_eq]
    exact applyId_idem _ _ (proj_keys_some _
      (by intro op q hq hkk; cases op <;> simp only [opKeyed] at hkk <;>
        simp at hq <;> (subst hq; simpa using hkk)) _ hk)
  · simp [exec_team_squad_eq]
  · simp [exec_player_stat_detail_eq]
  · rw [exec_fixtures_eq, exec_fixtures_eq]
    exact applyId_idem _ _ (proj_keys_some _
      (by intro op q hq hkk; cases op <;> simp only [opKeyed] at hkk <;>
        simp at hq <;> (subst hq; simpa using hkk)) _ hk)
  · rw [exec_fixture_participants_eq, exec_fixture_participants_eq]
    exact applyBy_idem _ _ _ (opsFP_self_conflict _ hk)
  · rw [exec_scores_eq, exec_scores_eq]
    exact applyId_idem _ _ (proj_keys_some _
      (by intro op q hq hkk; cases op <;> simp only [opKeyed] at hkk <;>
        simp at hq <;> (subst hq; simpa using hkk)) _ hk)
  · rw [exec_event_types_eq, exec_event_types_eq]
    exact applyId_idem _ _ (proj_keys_some _
      (by intro op q hq hkk; cases op <;> simp only [opKeyed] at hkk <;>
        simp at hq <;> (subst hq; simpa using hkk)) _ hk)
  · rw [exec_periods_eq, exec_periods_eq]
    exact applyId_idem _ _ (proj_keys_some _
      (by intro op q hq hkk; cases op <;> simp only [opKeyed] at hkk <;>
        simp at hq <;> (subst hq; simpa using hkk)) _ hk)
  · rw [exec_events_eq, exec_events_eq]
    exact applyId_idem _ _ (proj_keys_some _
      (by intro op q hq hkk; cases op <;> simp only [opKeyed] at hkk <;>
        simp at hq <;> (subst hq; simpa using hkk)) _ hk)
  · rw [exec_stat_types_eq, exec_stat_types_eq]
    exact applyId_idem _ _ (proj_keys_some _
      (by intro op q hq hkk; cases op <;> simp only [opKeyed] at hkk <;>
        simp at hq <;> (subst hq; simpa using hkk)) _ hk)
  · rw [exec_fixture_team_stats_eq, exec_fixture_team_stats_eq]
    exact applyId_idem _ _ (proj_keys_some _
      (by intro op q hq hkk; cases op <;> simp only [opKeyed] at hkk <;>
        simp at hq <;> (subst hq; simpa using hkk)) _ hk)
  · rw [exec_sideline_types_eq, exec_sideline_types_eq]
    exact applyId_idem _ _ (proj_keys_some _
      (by intro op q hq hkk; cases op <;> simp only [opKeyed] at hkk <;>
        simp at hq <;> (subst hq; simpa using hkk)) _ hk)
  · rw [exec_sidelines_eq, exec_sidelines_eq]
    exact applyId_idem _ _ (proj_keys_some _
      (by intro op q hq hkk; cases op <;> simp only [opKeyed] at hkk <;>
        simp at hq <;> (subst hq; simpa using hkk)) _ hk)
  · rw [exec_fixture_sidelines_eq, exec_fixture_sidelines_eq]
    exact applyId_idem _ _ (proj_keys_some _
      (by intro op q hq hkk; cases op <;> simp only [opKeyed] at hkk <;>
        simp at hq <;> (subst hq; simpa using hkk)) _ hk)
  · rw [exec_weather_reports_eq, exec_weather_reports_eq]
    exact applyId_idem _ _ (proj_keys_some _
      (by intro op q hq hkk; cases op <;> simp only [opKeyed] at hkk <;>
        simp at hq <;> (subst hq; simpa using hkk)) _ hk)
  · simp [exec_metadata_eq]

/-- The statistics entry of the C1 counterexample payload: no `id` key. -/
def statNoId : StatIn :=
  { fixture_id := some 100, participant_id := some 5, type_id := some 42,
    data := some { value := some 3 }, location := some "home" }

/-- The C1 counterexample payload: fixture 100 with one id-less statistic. -/
def fixtureCexC1 : FixtureIn :=
  { id := some 100, statistics := some (.ok [statNoId]) }

/-- **C1** (counterexample).  Ingesting `fixtureCexC1` twice is not the same
as ingesting it once: the second run adds a second `fixture_team_stats` row
(the id-less statistic is re-inserted under a fresh `AUTOINCREMENT` id). -/
theorem fixture_ingest_twice_adds_team_stat_row :
    (insert_or_update_fixture fixtureCexC1
        (insert_or_update_fixture fixtureCexC1 DBState.empty).1).1 ≠
      (insert_or_update_fixture fixtureCexC1 DBState.empty).1 ∧
    (insert_or_update_fixture fixtureCexC1
        DBState.empty).1.fixture_team_stats.length = 1 ∧
    (insert_or_update_fixture fixtureCexC1
        (insert_or_update_fixture fixtureCexC1
          DBState.empty).1).1.fixture_team_stats.length = 2 := by
  have h1 : (insert_or_update_fixture fixtureCexC1
      DBState.empty).1.fixture_team_stats.length = 1 := by decide
  have h2 : (insert_or_update_fixture fixtureCexC1
      (insert_or_update_fixture fixtureCexC1
        DBState.empty).1).1.fixture_team_stats.length = 2 := by decide
  refine ⟨fun h => ?_, h1, h2⟩
  rw [h, h1] at h2
  exact absurd h2 (by decide)

/-- Components of the C1 witness payload. -/
def stateWitC1 : StateIn := { id := some 5, state := some "FT" }

def scoreWitC1 : ScoreIn :=
  { id := some 70, fixture_id := some 100, participant_id := some 20,
    score := some { goals := some 2 } }

def eventWitC1 : EventIn :=
  { id := some 500, fixture_id := some 100,
    type := some { id := some 14, name := some "Goal" },
    period := some { id := some 90 } }

def statWitC1 : StatIn :=
  { id := some 900, fixture_id := some 100, participant_id := some 20,
    type_id := some 42, data := some { value := some 3 } }

def sidelineWitC1 : SidelineIn :=
  { id := some 61, type := some { id := some 15 },
    completed := some (.jbool true) }

def sidelinedWitC1 : SidelinedIn :=
  { id := some 60, fixture_id := some 100, sideline_id := some 61,
    sideline := some sidelineWitC1 }

def weatherWitC1 : WeatherIn := { id := some 80, fixture_id := some 100 }

/-- The fully keyed payload of the C1 witness: one record of every phase
the method can execute to completion, each carrying its own id. -/
def fixtureWitC1 : FixtureIn :=
  { id := some 100, state := some stateWitC1,
    scores := some [scoreWitC1],
    events := some [eventWitC1],
    statistics := some (.ok [statWitC1]),
    sidelined := some [sidelinedWitC1],
    weatherreport := some weatherWitC1 }

/-- **C1** (witness): the idempotence theorem applied to a concrete fully
keyed payload. -/
theorem fixture_ingest_idempotent_witness :
    (fixtureOps fixtureWitC1).1.all opKeyed = true ∧
    (insert_or_update_fixture fixtureWitC1
        (insert_or_update_fixture fixtureWitC1 DBState.empty).1).1 =
      (insert_or_update_fixture fixtureWitC1 DBState.empty).1 :=
  ⟨by decide, fixture_ingest_idempotent fixtureWitC1 DBState.empty (by decide)⟩

/-! ## Watermark round-trip (C6) and composite-key upserts (C7) -/

/-- Under an equality conflict test, `find?` by the written key returns
exactly the freshly upserted row. -/
theorem find?_upsertBy_beq {κ α : Type} [BEq κ] [LawfulBEq κ] (k : κ) (d : α)
    (t : List (κ × α)) :
    (upsertBy (fun a b => a == b) k d t).find? (fun r => r.1 == k) =
      some (k, d) := by
  induction t with
  | nil => simp [upsertBy]
  | cons x t ih =>
    simp only [upsertBy, List.filter_cons] at ih ⊢
    cases h : (x.1 == k) with
    | false => simpa [h] using ih
    | true => simpa [h] using ih

/-- Under an equality conflict test, re-running the same upsert is a no-op. -/
theorem upsertBy_beq_idem {κ α : Type} [BEq κ] [LawfulBEq κ] (k : κ) (d : α)
    (t : List (κ × α)) :
    upsertBy (fun a b => a == b) k d (upsertBy (fun a b => a == b) k d t) =
      upsertBy (fun a b => a == b) k d t := by
  simp [upsertBy, List.filter_append, List.filter_filter, Bool.and_self]

/-- **C6**.  For every entity-type string and timestamp, `set_last_update_time`
followed by `get_last_update_time` returns exactly the stored timestamp; the
value lives in `metadata` under the synthetic key `"last_update_<entity>"`,
and re-running the same `set` is a no-op (a single idempotent key-value
upsert). -/
theorem watermark_roundtrip (e T : String) (st : DBState) :
    get_last_update_time e (set_last_update_time e T st) = some T ∧
    set_last_update_time e T (set_last_update_time e T st) =
      set_last_update_time e T st ∧
    ("last_update_" ++ e, T) ∈ (set_last_update_time e T st).metadata := by
  refine ⟨?_, ?_, ?_⟩
  · simp [get_last_update_time, set_last_update_time, find?_upsertBy_beq]
  · simp [set_last_update_time, upsertBy_beq_idem]
  · simp [set_last_update_time, upsertBy]

/-- **C7**.  Upserting two squad entries for the same `(team, season,
player)` key with different jersey numbers leaves exactly one `team_squad`
row under that key, carrying the second (most recent) jersey number. -/
theorem team_squad_second_jersey_wins (t s p j1 j2 : Int)
    (item1 item2 : SquadItemIn) (pl1 pl2 : PlayerIn) (nm1 nm2 : String)
    (st : DBState)
    (h1p : item1.player = some pl1) (h1i : pl1.id = some p)
    (h1n : pl1.name = some nm1) (h1s : pl1.statistics = none)
    (h1j : item1.jersey_number = some j1)
    (h2p : item2.player = some pl2) (h2i : pl2.id = some p)
    (h2n : pl2.name = some nm2) (h2s : pl2.statistics = none)
    (h2j : item2.jersey_number = some j2) (hjj : j1 ≠ j2) :
    ((insert_or_update_team_squad t s [item2]
        (insert_or_update_team_squad t s [item1] st).1).1.team_squad.filter
          (fun r => r.1 == (t, s, p))) =
      [((t, s, p), ⟨some j2, rawDefaultZero item2.on_loan⟩)] := by
  simp only [insert_or_update_team_squad, h1p, h1i, h1n, h1s, h1j, h2p, h2i,
    h2n, h2s, h2j]
  rw [← h2j]
  exact filter_upsertBy_beq (t, s, p) _ _

/-- Concrete squad entries for the C7 witness. -/
def squadItem1C7 : SquadItemIn :=
  { player := some { id := some 55, name := some "P" },
    jersey_number := some 7 }

def squadItem2C7 : SquadItemIn :=
  { player := some { id := some 55, name := some "P" },
    jersey_number := some 9 }

/-- **C7** (witness): two concrete upserts for `(10, 2024, 55)` with jersey
numbers 7 then 9 leave one row with jersey 9. -/
theorem team_squad_second_jersey_wins_witness :
    squadItem1C7.jersey_number = some 7 ∧
    squadItem2C7.jersey_number = some 9 ∧ (7 : Int) ≠ 9 ∧
    ((insert_or_update_team_squad 10 2024 [squadItem2C7]
        (insert_or_update_team_squad 10 2024 [squadItem1C7]
          DBState.empty).1).1.team_squad.filter
          (fun r => r.1 == (10, 2024, 55))) =
      [((10, 2024, 55), ⟨some 9, rawDefaultZero squadItem2C7.on_loan⟩)] :=
  ⟨rfl, rfl, by decide,
    team_squad_second_jersey_wins 10 2024 55 7 9 squadItem1C7 squadItem2C7
      _ _ "P" "P" DBState.empty rfl rfl rfl rfl rfl rfl rfl rfl rfl rfl
      (by decide)⟩

/-! ## Replace-vs-ignore semantics (C2) and missing identity fields (C3) -/

/-- **C2** (amended).  A main-entity upsert replaces its row entirely — the
new `venues` row is built from the input record alone, with the columns the
statement does not write set to NULL, and any previous row under the same id
deleted.  But the embedded sub-record writes are `INSERT OR IGNORE`, not
replacements: when a `cities` row with the embedded city's id already
exists, `insert_or_update_venues` leaves the `cities` table untouched, and
when a `players` row with the squad player's id already exists,
`insert_or_update_team_squad` leaves the `players` table untouched. -/
theorem venue_replaces_row_but_embedded_writes_ignore
    (v : VenueIn) (c : CityIn) (i ci : Int) (nm cn : String) (st : DBState)
    (hv : v.id = some i) (hn : v.name = some nm) (hc : v.city = some c)
    (hci : c.id = some ci) (hcn : c.name = some cn)
    (hcx : st.cities.any (fun r => r.1 == ci) = true) :
    (insert_or_update_venues [v] st).2 = none ∧
    (insert_or_update_venues [v] st).1.cities = st.cities ∧
    (insert_or_update_venues [v] st).1.venues =
      st.venues.filter (fun r => r.1 != i) ++
        [(i, standaloneVenueRow v nm)] ∧
    (∀ (tid sid : Int) (item : SquadItemIn) (pl : PlayerIn) (pid : Int)
      (pnm : String), item.player = some pl → pl.id = some pid →
      pl.name = some pnm → pl.statistics = none →
      st.players.any (fun r => r.1 == pid) = true →
      (insert_or_update_team_squad tid sid [item] st).1.players =
        st.players) := by
  refine ⟨?_, ?_, ?_, ?_⟩
  · simp [insert_or_update_venues, hv, hn, hc, hci, hcn, insertIgnoreId, hcx]
  · simp [insert_or_update_venues, hv, hn, hc, hci, hcn, insertIgnoreId, hcx]
  · simp [insert_or_update_venues, hv, hn, hc, hci, hcn, insertIgnoreId, hcx,
      upsertId]
  · intro tid sid item pl pid pnm hp hpi hpn hps hpx
    simp [insert_or_update_team_squad, hp, hpi, hpn, hps, insertIgnoreId,
      hpx]

/-- Concrete inputs of the C2 counterexample: city 7 first stored with name
`"Old"`, then arriving embedded in a venue with name `"New"`. -/
def cityOldC2 : CityIn :=
  { id := some 7, name := some "Old", region_id := some 1 }

def cityNewC2 : CityIn :=
  { id := some 7, name := some "New", region_id := some 2 }

def venueCexC2 : VenueIn :=
  { id := some 3, name := some "V", city := some cityNewC2 }

/-- **C2** (counterexample).  The embedded city write inside
`insert_or_update_venues` does not replace the existing row: after storing
city 7 as `"Old"` and then upserting a venue embedding city 7 as `"New"`,
the stored city row still carries every pre-existing field (`"Old"`,
region 1) and none of the new record's values. -/
theorem embedded_city_write_leaves_existing_row :
    (insert_or_update_venues [venueCexC2]
        (insert_or_update_cities [cityOldC2] DBState.empty).1).2 = none ∧
    (insert_or_update_venues [venueCexC2]
        (insert_or_update_cities [cityOldC2] DBState.empty).1).1.cities =
      [(7, ⟨"Old", some 1, none⟩)] := by
  exact ⟨by decide, by decide⟩

/-- Concrete inputs of the C2 witness: a pre-existing venue 3 and city 7,
then a venue upsert embedding city 7. -/
def venuePrevC2 : VenueIn :=
  { id := some 3, name := some "Prev", address := some "X" }

def stWitC2 : DBState :=
  (insert_or_update_venues [venuePrevC2]
    (insert_or_update_cities [cityOldC2] DBState.empty).1).1

/-- **C2** (witness): the amended theorem applied to the concrete store
`stWitC2`. -/
theorem venue_replaces_row_but_embedded_writes_ignore_witness :
    stWitC2.cities.any (fun r => r.1 == 7) = true ∧
    ((insert_or_update_venues [venueCexC2] stWitC2).2 = none ∧
    (insert_or_update_venues [venueCexC2] stWitC2).1.cities =
      stWitC2.cities ∧
    (insert_or_update_venues [venueCexC2] stWitC2).1.venues =
      stWitC2.venues.filter (fun r => r.1 != 3) ++
        [(3, standaloneVenueRow venueCexC2 "V")] ∧
    (∀ (tid sid : Int) (item : SquadItemIn) (pl : PlayerIn) (pid : Int)
      (pnm : String), item.player = some pl → pl.id = some pid →
      pl.name = some pnm → pl.statistics = none →
      stWitC2.players.any (fun r => r.1 == pid) = true →
      (insert_or_update_team_squad tid sid [item] stWitC2).1.players =
        stWitC2.players)) :=
  ⟨by decide,
    venue_replaces_row_but_embedded_writes_ignore venueCexC2 cityNewC2 3 7
      "V" "New" stWitC2 rfl rfl rfl rfl rfl (by decide)⟩

/-- **C3** (amended).  Upserts that read the identity field by direct
subscript — `insert_or_update_continents` is the representative — fail with
`KeyError "id"` (the spec's `MissingKeyError`) and write nothing when `id`
is absent, and never raise `KeyError "id"` when `id` is present.  But an
upsert that reads its fields with `.get` — `insert_or_update_states` — does
not fail on a missing id: it writes the row under a freshly assigned rowid
instead. -/
theorem missing_id_fails_only_for_subscript_reads (c : ContinentIn)
    (st : DBState) :
    (c.id = none →
      insert_or_update_continents [c] st = (st, some (.keyError "id"))) ∧
    (∀ i, c.id = some i →
      (insert_or_update_continents [c] st).2 ≠ some (.keyError "id")) ∧
    (∀ s : StateIn, s.id = none →
      (insert_or_update_states [s] st).states =
        st.states ++ [(freshId st.states, stateRowOf s)]) := by
  refine ⟨?_, ?_, ?_⟩
  · intro h
    simp [insert_or_update_continents, h]
  · intro i hi
    cases hn : c.name with
    | none => simp [insert_or_update_continents, hi, hn]
    | some nm => simp [insert_or_update_continents, hi, hn]
  · intro s hs
    simp [insert_or_update_states, hs, upsertId]

/-- The id-less state record of the C3 counterexample. -/
def stateNoIdC3 : StateIn := { state := some "live" }

/-- **C3** (counterexample).  `insert_or_update_states` on a record without
an `id` does not fail and does write a row: the state lands in the `states`
table under the freshly assigned rowid 1, contradicting 'fails with
MissingKeyError and writes no row'. -/
theorem states_upsert_without_id_writes_row :
    (insert_or_update_states [stateNoIdC3] DBState.empty).states =
      [(1, ⟨some "live", none, none, none⟩)] := by
  decide

/-- **C3** (witness): the amended theorem applied to a concrete id-less
continent, a concrete keyed continent, and a concrete id-less state. -/
theorem missing_id_fails_only_for_subscript_reads_witness :
    ((ContinentIn.mk none (some "Europe") none).id = none ∧
      insert_or_update_continents [ContinentIn.mk none (some "Europe") none]
        DBState.empty = (DBState.empty, some (.keyError "id"))) ∧
    ((ContinentIn.mk (some 1) (some "Europe") none).id = some 1 ∧
      (insert_or_update_continents
        [ContinentIn.mk (some 1) (some "Europe") none]
        DBState.empty).2 ≠ some (.keyError "id")) ∧
    (stateNoIdC3.id = none ∧
      (insert_or_update_states [stateNoIdC3] DBState.empty).states =
        DBState.empty.states ++
          [(freshId DBState.empty.states, stateRowOf stateNoIdC3)]) :=
  ⟨⟨rfl, (missing_id_fails_only_for_subscript_reads
      (ContinentIn.mk none (some "Europe") none) DBState.empty).1 rfl⟩,
   ⟨rfl, (missing_id_fails_only_for_subscript_reads
      (ContinentIn.mk (some 1) (some "Europe") none) DBState.empty).2.1
      1 rfl⟩,
   ⟨rfl, (missing_id_fails_only_for_subscript_reads
      (ContinentIn.mk (some 1) (some "Europe") none)
      DBState.empty).2.2 stateNoIdC3 rfl⟩⟩

/-! ## Batch behaviour (C4) -/

/-- **C4** (amended).  `insert_or_update_fixtures` is a plain loop, not an
error boundary: it ingests payloads in order, and the first per-fixture
error is re-raised out of the loop — the fixtures before the failing one
are fully ingested, the failing fixture's writes up to the error are
applied, the remaining fixtures are not processed, and no summary is
produced (the error itself is the result). -/
theorem batch_reraises_first_fixture_error (ps1 : List FixtureIn)
    (p : FixtureIn) (ps2 : List FixtureIn) (st : DBState) (e : DbErr)
    (h1 : ∀ q ∈ ps1, (fixtureOps q).2 = none)
    (h2 : (fixtureOps p).2 = some e) :
    insert_or_update_fixtures (ps1 ++ p :: ps2) st =
      ((insert_or_update_fixture p
          (insert_or_update_fixtures ps1 st).1).1, some e) := by
  induction ps1 generalizing st with
  | nil => simp [insert_or_update_fixtures, insert_or_update_fixture, h2]
  | cons q qs ih =>
    have hq := h1 q (List.mem_cons_self q qs)
    simp only [List.cons_append, insert_or_update_fixtures,
      insert_or_update_fixture, hq]
    exact ih _ (fun r hr => h1 r (List.mem_cons_of_mem _ hr))

/-- The C4 batch: fixtures 1 and 3 well-formed, fixture 2 with a malformed
(truthy non-list) `statistics` value. -/
def fixtureB1 : FixtureIn := { id := some 1 }

def fixtureB2 : FixtureIn := { id := some 2, statistics := some .malformed }

def fixtureB3 : FixtureIn := { id := some 3 }

/-- **C4** (counterexample).  On the batch `[1, 2-malformed, 3]` the loop
re-raises the `TypeError` (the spec's `MalformedPayloadError`) instead of
returning a summary, and fixture 3 is never ingested — only fixtures 1 and
2 reach the `fixtures` table (2's row was written before its statistics
loop raised). -/
theorem batch_aborts_on_malformed_statistics :
    (insert_or_update_fixtures [fixtureB1, fixtureB2, fixtureB3]
        DBState.empty).2 = some .malformedPayload ∧
    ((insert_or_update_fixtures [fixtureB1, fixtureB2, fixtureB3]
        DBState.empty).1.fixtures.map Prod.fst) = [1, 2] := by
  exact ⟨by decide, by decide⟩

/-- **C4** (witness): the amended batch theorem applied to the concrete
batch `[1, 2-malformed, 3]`. -/
theorem batch_reraises_first_fixture_error_witness :
    (fixtureOps fixtureB1).2 = none ∧
    (fixtureOps fixtureB2).2 = some .malformedPayload ∧
    insert_or_update_fixtures [fixtureB1, fixtureB2, fixtureB3]
        DBState.empty =
      ((insert_or_update_fixture fixtureB2
          (insert_or_update_fixtures [fixtureB1] DBState.empty).1).1,
        some .malformedPayload) :=
  ⟨rfl, rfl,
    batch_reraises_first_fixture_error [fixtureB1] fixtureB2 [fixtureB3]
      DBState.empty .malformedPayload (by decide) rfl⟩

/-! ## Shape of the generated writes, phase by phase -/

theorem mem_of_mem_opsSeq {a b : List Wr × Option DbErr} {op : Wr}
    (h : op ∈ (opsSeq a b).1) : op ∈ a.1 ∨ op ∈ b.1 := by
  unfold opsSeq at h
  cases ha : a.2 with
  | some e => rw [ha] at h; exact Or.inl h
  | none => rw [ha] at h; exact List.mem_append.1 h

theorem leagueOps_of_none {p : FixtureIn} (hl : p.league = none) :
    leagueOps p = ([], none) := by
  unfold leagueOps
  rw [hl]

theorem venueOps_of_none {p : FixtureIn} (hv : p.venue = none) :
    venueOps p = ([], none) := by
  unfold venueOps
  rw [hv]

theorem leagueOps_fst (p : FixtureIn) : (leagueOps p).1 = [] := by
  unfold leagueOps
  cases p.league <;> rfl

theorem venueOps_fst (p : FixtureIn) : (venueOps p).1 = [] := by
  unfold venueOps
  cases p.venue <;> rfl

theorem participantOps_fst (p : FixtureIn) : (participantOps p).1 = [] := by
  unfold participantOps
  cases p.participants with
  | none => rfl
  | some l => cases l <;> rfl

theorem participantOps_of_getD_nil {p : FixtureIn}
    (h : p.participants.getD [] = []) : participantOps p = ([], none) := by
  unfold participantOps
  cases hp : p.participants with
  | none => rfl
  | some l =>
    rw [hp] at h
    simp only [Option.getD_some] at h
    subst h
    rfl

theorem forall_mem_stateOps {P : Wr → Prop} (p : FixtureIn)
    (h : ∀ s, p.state = some s → P (.states s.id (stateRowOf s))) :
    ∀ op ∈ stateOps p, P op := by
  intro op hop
  cases hs : p.state with
  | none => simp [stateOps, hs] at hop
  | some s =>
    simp only [stateOps, hs, List.mem_singleton] at hop
    subst hop
    exact h s hs

theorem forall_mem_scoreOps {P : Wr → Prop} (p : FixtureIn)
    (h : ∀ s ∈ p.scores.getD [], P (.scores s.id (scoreRowOf s))) :
    ∀ op ∈ scoreOps p, P op := by
  intro op hop
  cases hp : p.scores with
  | none => simp [scoreOps, hp] at hop
  | some l =>
    simp only [scoreOps, hp] at hop
    rcases List.mem_map.1 hop with ⟨s, hs, rfl⟩
    exact h s (by simp [hp, hs])

theorem forall_mem_weatherOps {P : Wr → Prop} (p : FixtureIn)
    (h : ∀ w, p.weatherreport = some w →
      P (.weather_reports w.id (weatherRowOf w))) :
    ∀ op ∈ weatherOps p, P op := by
  intro op hop
  cases hw : p.weatherreport with
  | none => simp [weatherOps, hw] at hop
  | some w =>
    simp only [weatherOps, hw, List.mem_singleton] at hop
    subst hop
    exact h w hw

theorem forall_mem_eventOpsOne {P : Wr → Prop} (e : EventIn)
    (h1 : ∀ t, e.type = some t → P (.event_types t.id (typRowOf t)))
    (h2 : ∀ pd, e.period = some pd → P (.periods pd.id (periodRowOf pd)))
    (h3 : P (.events e.id (eventRowOf e))) :
    ∀ op ∈ (eventOpsOne e).1, P op := by
  have hsub : ∀ op ∈ eventSubOps e, P op := by
    intro op hop
    simp only [eventSubOps, List.mem_append] at hop
    rcases hop with h | h
    · cases ht : e.type with
      | none => rw [ht] at h; simp at h
      | some t =>
        rw [ht] at h
        simp only [List.mem_singleton] at h
        subst h
        exact h1 t ht
    · cases ht : e.period with
      | none => rw [ht] at h; simp at h
      | some pd =>
        rw [ht] at h
        simp only [List.mem_singleton] at h
        subst h
        exact h2 pd ht
  intro op hop
  unfold eventOpsOne at hop
  cases hpl : e.player with
  | some pl =>
    rw [hpl] at hop
    exact hsub op hop
  | none =>
    rw [hpl] at hop
    rcases List.mem_append.1 hop with h | h
    · exact hsub op h
    · simp only [List.mem_singleton] at h
      subst h
      exact h3

theorem forall_mem_eventOpsList {P : Wr → Prop} (es : List EventIn)
    (h : ∀ e ∈ es, ∀ op ∈ (eventOpsOne e).1, P op) :
    ∀ op ∈ (eventOpsList es).1, P op := by
  induction es with
  | nil => intro op hop; simp [eventOpsList] at hop
  | cons e rest ih =>
    intro op hop
    have hop' : op ∈ (opsSeq (eventOpsOne e) (eventOpsList rest)).1 := hop
    rcases mem_of_mem_opsSeq hop' with h1 | h1
    · exact h e (List.mem_cons_self _ _) op h1
    · exact ih (fun e' he' => h e' (List.mem_cons_of_mem _ he')) op h1

theorem forall_mem_statOps {P : Wr → Prop} (l : List StatIn)
    (h : ∀ s ∈ l,
      (∀ t, s.type = some t → P (.stat_types t.id (typRowOf t))) ∧
      P (.fixture_team_stats s.id (ftsRowOf s))) :
    ∀ op ∈ statOps l, P op := by
  intro op hop
  rcases List.mem_flatMap.1 hop with ⟨s, hs, hmem⟩
  have h2 := h s hs
  simp only [statOpsOne, List.mem_append, List.mem_singleton] at hmem
  rcases hmem with h1 | rfl
  · cases ht : s.type with
    | none => rw [ht] at h1; simp at h1
    | some t =>
      rw [ht] at h1
      simp only [List.mem_singleton] at h1
      subst h1
      exact h2.1 t ht
  · exact h2.2

theorem statPhase_of_none {p : FixtureIn} (hs : p.statistics = none) :
    statPhase p = ([], none) := by
  simp [statPhase, hs]

theorem statPhase_of_ok {p : FixtureIn} {l : List StatIn}
    (hs : p.statistics = some (.ok l)) : statPhase p = (statOps l, none) := by
  simp [statPhase, hs]

theorem statPhase_snd_none {p : FixtureIn}
    (hns : p.statistics ≠ some .malformed) : (statPhase p).2 = none := by
  cases hs : p.statistics with
  | none => simp [statPhase, hs]
  | some sf =>
    cases sf with
    | ok l => simp [statPhase, hs]
    | malformed => exact absurd hs hns

theorem forall_mem_statPhase {P : Wr → Prop} (p : FixtureIn)
    (h : ∀ l, p.statistics = some (.ok l) → ∀ op ∈ statOps l, P op) :
    ∀ op ∈ (statPhase p).1, P op := by
  intro op hop
  cases hs : p.statistics with
  | none =>
    rw [statPhase_of_none hs] at hop
    simp at hop
  | some sf =>
    cases sf with
    | malformed =>
      have hm : statPhase p = ([], some .malformedPayload) := by
        simp [statPhase, hs]
      rw [hm] at hop
      simp at hop
    | ok l =>
      rw [statPhase_of_ok hs] at hop
      exact h l hs op hop

theorem forall_mem_sidelinedOpsOne {P : Wr → Prop} (sd : SidelinedIn)
    (h1 : P (.fixture_sidelines sd.id (fsRowOf sd)))
    (h2 : ∀ sl, sd.sideline = some sl →
      (∀ t, sl.type = some t → P (.sideline_types t.id (typRowOf t))) ∧
      P (.sidelines sl.id (sidelineRowOf sl))) :
    ∀ op ∈ (sidelinedOpsOne sd).1, P op := by
  intro op hop
  unfold sidelinedOpsOne at hop
  cases hsl : sd.sideline with
  | none =>
    simp only [hsl, List.mem_singleton] at hop
    subst hop
    exact h1
  | some sl =>
    simp only [hsl] at hop
    have h3 := h2 sl hsl
    have htw : ∀ op ∈ (match sl.type with
        | some t => [Wr.sideline_types t.id (typRowOf t)]
        | none => ([] : List Wr)), P op := by
      intro op hop
      cases ht : sl.type with
      | none => rw [ht] at hop; simp at hop
      | some t =>
        rw [ht] at hop
        simp only [List.mem_singleton] at hop
        subst hop
        exact h3.1 t ht
    cases hpl : sl.player with
    | some pl =>
      simp only [hpl, List.mem_cons] at hop
      rcases hop with rfl | hop
      · exact h1
      · exact htw op hop
    | none =>
      simp only [hpl, List.mem_cons, List.mem_append, List.mem_singleton,
        List.not_mem_nil, or_false] at hop
      rcases hop with rfl | hop | rfl
      · exact h1
      · exact htw op hop
      · exact h3.2

theorem forall_mem_sidelinedOpsList {P : Wr → Prop} (sds : List SidelinedIn)
    (h : ∀ sd ∈ sds, ∀ op ∈ (sidelinedOpsOne sd).1, P op) :
    ∀ op ∈ (sidelinedOpsList sds).1, P op := by
  induction sds with
  | nil => intro op hop; simp [sidelinedOpsList] at hop
  | cons sd rest ih =>
    intro op hop
    have hop' : op ∈ (opsSeq (sidelinedOpsOne sd) (sidelinedOpsList rest)).1 :=
      hop
    rcases mem_of_mem_opsSeq hop' with h1 | h1
    · exact h sd (List.mem_cons_self _ _) op h1
    · exact ih (fun sd' hsd' => h sd' (List.mem_cons_of_mem _ hsd')) op h1

/-- The head write of every sidelined entry's group is its
`fixture_sidelines` link. -/
theorem fs_mem_sidelinedOpsOne (sd : SidelinedIn) :
    Wr.fixture_sidelines sd.id (fsRowOf sd) ∈ (sidelinedOpsOne sd).1 := by
  unfold sidelinedOpsOne
  cases hsl : sd.sideline with
  | none => simp
  | some sl =>
    cases hpl : sl.player with
    | some pl => simp [hpl]
    | none => simp [hpl]

/-- A player-free event's group is its sub-records followed by the event
row. -/
theorem eventOpsOne_of_player_none {e : EventIn} (h : e.player = none) :
    eventOpsOne e =
      (eventSubOps e ++ [.events e.id (eventRowOf e)], none) := by
  unfold eventOpsOne
  rw [h]

/-- A player-free events list runs to the end with no error. -/
theorem eventOpsList_clean (es : List EventIn)
    (h : ∀ e ∈ es, e.player = none) :
    eventOpsList es =
      (es.flatMap (fun e => (eventOpsOne e).1), none) := by
  induction es with
  | nil => rfl
  | cons e rest ih =>
    have h1 := eventOpsOne_of_player_none (h e (List.mem_cons_self _ _))
    show opsSeq (eventOpsOne e) (eventOpsList rest) = _
    rw [ih (fun e' he' => h e' (List.mem_cons_of_mem _ he')), h1,
      opsSeq_none, List.flatMap_cons, h1]

theorem sidelinedOpsOne_snd_none {sd : SidelinedIn}
    (h : ∀ sl, sd.sideline = some sl → sl.player = none) :
    (sidelinedOpsOne sd).2 = none := by
  cases hsl : sd.sideline with
  | none => simp [sidelinedOpsOne, hsl]
  | some sl => simp [sidelinedOpsOne, hsl, h sl hsl]

/-- A sidelined list with no embedded players runs to the end with no
error. -/
theorem sidelinedOpsList_clean (sds : List SidelinedIn)
    (h : ∀ sd ∈ sds, ∀ sl, sd.sideline = some sl → sl.player = none) :
    sidelinedOpsList sds =
      (sds.flatMap (fun sd => (sidelinedOpsOne sd).1), none) := by
  induction sds with
  | nil => rfl
  | cons sd rest ih =>
    have h2 : (sidelinedOpsOne sd).2 = none :=
      sidelinedOpsOne_snd_none (h sd (List.mem_cons_self _ _))
    show opsSeq (sidelinedOpsOne sd) (sidelinedOpsList rest) = _
    rw [ih (fun sd' hsd' => h sd' (List.mem_cons_of_mem _ hsd'))]
    unfold opsSeq
    rw [h2]
    simp [List.flatMap_cons]

/-- Full characterisation of a run that avoids every raising statement:
no league/venue/participants sub-objects, no embedded players, a
well-shaped statistics value.  The method reaches its end with the writes
of each surviving phase in source order and no error. -/
theorem fixtureOps_clean (p : FixtureIn)
    (hl : p.league = none) (hv : p.venue = none)
    (hpt : p.participants.getD [] = [])
    (hev : ∀ e ∈ p.events.getD [], e.player = none)
    (hsd : ∀ sd ∈ p.sidelined.getD [], ∀ sl, sd.sideline = some sl →
      sl.player = none)
    (hns : p.statistics ≠ some .malformed) :
    fixtureOps p =
      (.fixtures p.id (fixtureRowOf p) ::
        (stateOps p ++ (scoreOps p ++
          ((p.events.getD []).flatMap (fun e => (eventOpsOne e).1) ++
            ((statPhase p).1 ++
              ((p.sidelined.getD []).flatMap
                  (fun sd => (sidelinedOpsOne sd).1) ++
                weatherOps p))))), none) := by
  have h6 : statPhase p = ((statPhase p).1, none) := by
    have hn := statPhase_snd_none hns
    cases hsp : statPhase p with
    | mk a b =>
      rw [hsp] at hn
      simp only at hn
      subst hn
      rfl
  unfold fixtureOps
  rw [leagueOps_of_none hl, venueOps_of_none hv,
    participantOps_of_getD_nil hpt, eventOpsList_clean _ hev,
    sidelinedOpsList_clean _ hsd]
  rw [h6]
  simp [List.append_assoc]

/-- Master shape lemma: a property holding at every write a payload can
generate holds for every executed write. -/
theorem forall_mem_fixtureOps {P : Wr → Prop} (p : FixtureIn)
    (hfix : P (.fixtures p.id (fixtureRowOf p)))
    (hst : ∀ s, p.state = some s → P (.states s.id (stateRowOf s)))
    (hsc : ∀ s ∈ p.scores.getD [], P (.scores s.id (scoreRowOf s)))
    (hev : ∀ e ∈ p.events.getD [],
      (∀ t, e.type = some t → P (.event_types t.id (typRowOf t))) ∧
      (∀ pd, e.period = some pd → P (.periods pd.id (periodRowOf pd))) ∧
      P (.events e.id (eventRowOf e)))
    (hstat : ∀ l, p.statistics = some (.ok l) → ∀ s ∈ l,
      (∀ t, s.type = some t → P (.stat_types t.id (typRowOf t))) ∧
      P (.fixture_team_stats s.id (ftsRowOf s)))
    (hsd : ∀ sd ∈ p.sidelined.getD [],
      P (.fixture_sidelines sd.id (fsRowOf sd)) ∧
      (∀ sl, sd.sideline = some sl →
        (∀ t, sl.type = some t → P (.sideline_types t.id (typRowOf t))) ∧
        P (.sidelines sl.id (sidelineRowOf sl))))
    (hwt : ∀ w, p.weatherreport = some w →
      P (.weather_reports w.id (weatherRowOf w))) :
    ∀ op ∈ (fixtureOps p).1, P op := by
  intro op hop
  unfold fixtureOps at hop
  rcases mem_of_mem_opsSeq hop with h | h
  · have h' : op ∈ [Wr.fixtures p.id (fixtureRowOf p)] := h
    simp only [List.mem_singleton] at h'
    subst h'
    exact hfix
  rcases mem_of_mem_opsSeq h with h | h
  · rw [leagueOps_fst] at h
    simp at h
  rcases mem_of_mem_opsSeq h with h | h
  · rw [venueOps_fst] at h
    simp at h
  rcases mem_of_mem_opsSeq h with h | h
  · exact forall_mem_stateOps p hst op h
  rcases mem_of_mem_opsSeq h with h | h
  · rw [participantOps_fst] at h
    simp at h
  rcases mem_of_mem_opsSeq h with h | h
  · exact forall_mem_scoreOps p hsc op h
  rcases mem_of_mem_opsSeq h with h | h
  · refine forall_mem_eventOpsList _ ?_ op h
    intro e he
    exact forall_mem_eventOpsOne e (hev e he).1 (hev e he).2.1 (hev e he).2.2
  rcases mem_of_mem_opsSeq h with h | h
  · refine forall_mem_statPhase p ?_ op h
    intro l hls
    exact forall_mem_statOps l (hstat l hls)
  rcases mem_of_mem_opsSeq h with h | h
  · refine forall_mem_sidelinedOpsList _ ?_ op h
    intro sd hsd'
    exact forall_mem_sidelinedOpsOne sd (hsd sd hsd').1 (hsd sd hsd').2
  · exact forall_mem_weatherOps p hwt op h

/-! ## Write order of the orchestrator (C5) -/

/-- Is a write the fixture-row insert? -/
def isFixtureWrite : Wr → Bool
  | .fixtures _ _ => true
  | _ => false

/-- Is a write the league insert? -/
def isLeagueWrite : Wr → Bool
  | .leagues _ _ => true
  | _ => false

/-- Is a write one of an event's embedded sub-record inserts
(type / period)? -/
def isEventSubWrite : Wr → Bool
  | .event_types _ _ => true
  | .periods _ _ => true
  | .players _ _ => true
  | _ => false

/-- The C5 counterexample payload: a fixture with an embedded league. -/
def leagueCexC5 : LeagueIn := { id := some 8, name := some "PL" }

def fixtureCexC5 : FixtureIn := { id := some 1, league := some leagueCexC5 }

/-- **C5** (counterexample).  For a payload with an embedded league, no
league upsert is performed before the fixture row — or at all: the fixture
row is the only executed write, after which the league `INSERT` (whose
column list names `short_code`, absent from the `leagues` schema) raises
`OperationalError` and aborts the method. -/
theorem league_write_not_before_fixture_write :
    (fixtureOps fixtureCexC5).1 =
      [.fixtures fixtureCexC5.id (fixtureRowOf fixtureCexC5)] ∧
    (∀ op ∈ (fixtureOps fixtureCexC5).1, isLeagueWrite op = false) ∧
    (fixtureOps fixtureCexC5).2 =
      some (.operationalError "leagues" "short_code") := by
  exact ⟨by decide, by decide, by decide⟩

/-- **C5** (amended).  The orchestrator writes the fixture row *first* — it
is the head of the executed writes, not written after the
league/venue/state/team-stub upserts (which the schema mismatches prevent
from ever succeeding).  For a payload that avoids the schema-broken
statements, each event's embedded type/period sub-records are upserted
before the event row that references them: the event's write group appears
contiguously, ends with the event row, and every earlier write of the
group is a sub-record upsert. -/
theorem fixture_row_written_first (p : FixtureIn) (e : EventIn)
    (hl : p.league = none) (hv : p.venue = none)
    (hpt : p.participants.getD [] = [])
    (hep : ∀ e' ∈ p.events.getD [], e'.player = none)
    (he : e ∈ p.events.getD []) :
    (fixtureOps p).1.head? = some (.fixtures p.id (fixtureRowOf p)) ∧
    (∃ pre suf, (fixtureOps p).1 = pre ++ (eventOpsOne e).1 ++ suf) ∧
    (eventOpsOne e).1.getLast? = some (.events e.id (eventRowOf e)) ∧
    (∀ op ∈ eventSubOps e, isEventSubWrite op = true) := by
  have hone : (eventOpsOne e).1 =
      eventSubOps e ++ [.events e.id (eventRowOf e)] := by
    rw [eventOpsOne_of_player_none (hep e he)]
  have hpre : ∃ tl, (fixtureOps p).1 =
      .fixtures p.id (fixtureRowOf p) ::
        (stateOps p ++ (scoreOps p ++
          ((p.events.getD []).flatMap (fun e' => (eventOpsOne e').1) ++
            tl))) := by
    unfold fixtureOps
    rw [leagueOps_of_none hl, venueOps_of_none hv,
      participantOps_of_getD_nil hpt, eventOpsList_clean _ hep]
    refine ⟨(opsSeq (statPhase p)
      (opsSeq (sidelinedOpsList (p.sidelined.getD []))
        (weatherOps p, none))).1, ?_⟩
    simp [List.append_assoc]
  rcases hpre with ⟨tl, htl⟩
  refine ⟨?_, ?_, ?_, ?_⟩
  · rw [htl]
    rfl
  · rcases List.append_of_mem he with ⟨s, t2, hsplit⟩
    refine ⟨.fixtures p.id (fixtureRowOf p) ::
        (stateOps p ++ (scoreOps p ++
          s.flatMap (fun e' => (eventOpsOne e').1))),
      t2.flatMap (fun e' => (eventOpsOne e').1) ++ tl, ?_⟩
    rw [htl, hsplit]
    simp [List.flatMap_append, List.flatMap_cons, List.append_assoc]
  · rw [hone]
    exact List.getLast?_concat _
  · intro op hop
    simp only [eventSubOps, List.mem_append] at hop
    rcases hop with h | h
    · cases ht : e.type with
      | none => rw [ht] at h; simp at h
      | some t =>
        rw [ht] at h
        simp only [List.mem_singleton] at h
        subst h
        rfl
    · cases ht : e.period with
      | none => rw [ht] at h; simp at h
      | some pd =>
        rw [ht] at h
        simp only [List.mem_singleton] at h
        subst h
        rfl

/-- The C5 witness payload: one event embedding a type and a period (and no
player, so its statement sequence is entirely schema-valid). -/
def eventWitC5 : EventIn :=
  { id := some 500, fixture_id := some 2,
    type := some { id := some 14, name := some "Goal" },
    period := some { id := some 90 } }

def fixtureWitC5 : FixtureIn := { id := some 2, events := some [eventWitC5] }

/-- **C5** (witness): the amended ordering theorem applied to the concrete
payload `fixtureWitC5` and its event. -/
theorem fixture_row_written_first_witness :
    fixtureWitC5.league = none ∧ fixtureWitC5.venue = none ∧
    fixtureWitC5.participants.getD [] = [] ∧
    (∀ e' ∈ fixtureWitC5.events.getD [], e'.player = none) ∧
    eventWitC5 ∈ fixtureWitC5.events.getD [] ∧
    ((fixtureOps fixtureWitC5).1.head? =
        some (.fixtures fixtureWitC5.id (fixtureRowOf fixtureWitC5)) ∧
      (∃ pre suf, (fixtureOps fixtureWitC5).1 =
        pre ++ (eventOpsOne eventWitC5).1 ++ suf) ∧
      (eventOpsOne eventWitC5).1.getLast? =
        some (.events eventWitC5.id (eventRowOf eventWitC5)) ∧
      (∀ op ∈ eventSubOps eventWitC5, isEventSubWrite op = true)) :=
  ⟨rfl, rfl, by decide, by decide, by decide,
    fixture_row_written_first fixtureWitC5 eventWitC5 rfl rfl (by decide)
      (by decide) (by decide)⟩

/-! ## Absent optional sub-objects (C8) -/

/-- Is a write the weather-report insert? -/
def isWeatherWrite : Wr → Bool
  | .weather_reports _ _ => true
  | _ => false

/-- The C8 counterexample payload: no `weatherreport` key, but an embedded
league. -/
def leagueCexC8 : LeagueIn := { id := some 39, name := some "SL" }

def fixtureCexC8 : FixtureIn := { id := some 7, league := some leagueCexC8 }

/-- **C8** (counterexample).  A payload with no `weatherreport` key does
not always ingest successfully: with an embedded league the method aborts
with `OperationalError` at the league `INSERT` (whose column list names
`short_code`, absent from the `leagues` schema), and the present league
sub-object is not ingested. -/
theorem weatherless_payload_aborts_on_league :
    fixtureCexC8.weatherreport = none ∧
    (insert_or_update_fixture fixtureCexC8 DBState.empty).2 =
      some (.operationalError "leagues" "short_code") ∧
    (insert_or_update_fixture fixtureCexC8 DBState.empty).1.leagues = [] := by
  exact ⟨rfl, by decide, by decide⟩

/-- **C8** (amended).  A payload with no `weatherreport` key ingests with
no error *provided* it also avoids the schema-broken statements — no
league, venue or participant sub-objects and no embedded players in events
or sidelined entries — and its `statistics` value is well shaped.  Then no
`weather_reports` row is created (no weather write is even generated), and
every remaining present sub-object's write still appears among the
executed writes.  (Without those provisos a weatherless payload can abort
with `OperationalError`: see the counterexample.) -/
theorem weatherless_payload_ingests (p : FixtureIn) (st : DBState)
    (hw : p.weatherreport = none)
    (hns : p.statistics ≠ some .malformed)
    (hl : p.league = none) (hv : p.venue = none)
    (hpt : p.participants.getD [] = [])
    (hev : ∀ e ∈ p.events.getD [], e.player = none)
    (hsd : ∀ sd ∈ p.sidelined.getD [], ∀ sl, sd.sideline = some sl →
      sl.player = none) :
    (insert_or_update_fixture p st).2 = none ∧
    (insert_or_update_fixture p st).1.weather_reports =
      st.weather_reports ∧
    (∀ op ∈ (fixtureOps p).1, isWeatherWrite op = false) ∧
    (∀ s, p.state = some s →
      Wr.states s.id (stateRowOf s) ∈ (fixtureOps p).1) ∧
    (∀ sc ∈ p.scores.getD [],
      Wr.scores sc.id (scoreRowOf sc) ∈ (fixtureOps p).1) ∧
    (∀ e ∈ p.events.getD [],
      Wr.events e.id (eventRowOf e) ∈ (fixtureOps p).1) ∧
    (∀ l, p.statistics = some (.ok l) → ∀ s ∈ l,
      Wr.fixture_team_stats s.id (ftsRowOf s) ∈ (fixtureOps p).1) ∧
    (∀ sd ∈ p.sidelined.getD [],
      Wr.fixture_sidelines sd.id (fsRowOf sd) ∈ (fixtureOps p).1) := by
  have hcl := fixtureOps_clean p hl hv hpt hev hsd hns
  have hnw : ∀ op ∈ (fixtureOps p).1, isWeatherWrite op = false := by
    refine forall_mem_fixtureOps p rfl (fun s _ => rfl) (fun s _ => rfl)
      (fun e _ => ⟨fun t _ => rfl, fun pd _ => rfl, rfl⟩)
      (fun l _ s _ => ⟨fun t _ => rfl, rfl⟩)
      (fun sd _ => ⟨rfl, fun sl _ => ⟨fun t _ => rfl, rfl⟩⟩)
      (fun w hwr => ?_)
    rw [hw] at hwr
    exact absurd hwr (by simp)
  refine ⟨?_, ?_, hnw, ?_, ?_, ?_, ?_, ?_⟩
  · show (fixtureOps p).2 = none
    rw [hcl]
  · have hzero : opsWeather (fixtureOps p).1 = [] := by
      unfold opsWeather
      rw [List.filterMap_eq_nil_iff]
      intro op hop
      have := hnw op hop
      cases op <;> simp_all [isWeatherWrite]
    show (exec (fixtureOps p).1 st).weather_reports = st.weather_reports
    rw [exec_weather_reports_eq, hzero]
    rfl
  · intro s hs
    rw [hcl]
    apply List.mem_cons_of_mem
    apply List.mem_append_left
    simp [stateOps, hs]
  · intro sc hsc
    rw [hcl]
    apply List.mem_cons_of_mem
    apply List.mem_append_right
    apply List.mem_append_left
    cases hp : p.scores with
    | none => rw [hp] at hsc; simp at hsc
    | some l =>
      rw [hp] at hsc
      simp only [Option.getD_some] at hsc
      simp only [scoreOps, hp]
      exact List.mem_map.2 ⟨sc, hsc, rfl⟩
  · intro e he
    rw [hcl]
    apply List.mem_cons_of_mem
    apply List.mem_append_right
    apply List.mem_append_right
    apply List.mem_append_left
    refine List.mem_flatMap.2 ⟨e, he, ?_⟩
    rw [eventOpsOne_of_player_none (hev e he)]
    exact List.mem_append_right _ (List.mem_singleton.2 rfl)
  · intro l hls s hs
    rw [hcl]
    apply List.mem_cons_of_mem
    apply List.mem_append_right
    apply List.mem_append_right
    apply List.mem_append_right
    apply List.mem_append_left
    rw [statPhase_of_ok hls]
    refine List.mem_flatMap.2 ⟨s, hs, ?_⟩
    simp [statOpsOne]
  · intro sd hsd'
    rw [hcl]
    apply List.mem_cons_of_mem
    apply List.mem_append_right
    apply List.mem_append_right
    apply List.mem_append_right
    apply List.mem_append_right
    apply List.mem_append_left
    exact List.mem_flatMap.2 ⟨sd, hsd', fs_mem_sidelinedOpsOne sd⟩

/-- The C8 witness payload: state and scores present, no `weatherreport`
key, nothing that hits a schema-broken statement. -/
def scoreWitC8 : ScoreIn :=
  { id := some 70, fixture_id := some 9, score := some { goals := some 2 } }

def fixtureWitC8 : FixtureIn :=
  { id := some 9, state := some { id := some 5, state := some "FT" },
    scores := some [scoreWitC8] }

/-- **C8** (witness): the amended theorem applied to the concrete
weatherless payload `fixtureWitC8` (checking the error, the untouched
table and the state write). -/
theorem weatherless_payload_ingests_witness :
    fixtureWitC8.weatherreport = none ∧
    fixtureWitC8.statistics ≠ some .malformed ∧
    fixtureWitC8.league = none ∧ fixtureWitC8.venue = none ∧
    fixtureWitC8.participants.getD [] = [] ∧
    (∀ e ∈ fixtureWitC8.events.getD [], e.player = none) ∧
    (∀ sd ∈ fixtureWitC8.sidelined.getD [], ∀ sl, sd.sideline = some sl →
      sl.player = none) ∧
    ((insert_or_update_fixture fixtureWitC8 DBState.empty).2 = none ∧
      (insert_or_update_fixture fixtureWitC8
        DBState.empty).1.weather_reports =
        DBState.empty.weather_reports ∧
      Wr.states (some 5) (stateRowOf { id := some 5, state := some "FT" }) ∈
        (fixtureOps fixtureWitC8).1) := by
  have hsd : ∀ sd ∈ fixtureWitC8.sidelined.getD [], ∀ sl,
      sd.sideline = some sl → sl.player = none := by
    intro sd hsd
    simp [fixtureWitC8] at hsd
  have h := weatherless_payload_ingests fixtureWitC8 DBState.empty rfl
    (by decide) rfl rfl (by decide) (by decide) hsd
  exact ⟨rfl, by decide, rfl, rfl, by decide, by decide, hsd, h.1, h.2.1,
    h.2.2.2.1 { id := some 5, state := some "FT" } rfl⟩

/-! ## Referential completeness of participants (C9) -/

/-- The general shape behind the C9 divergence: with a non-empty
`participants` list (and no earlier-aborting league or venue sub-object)
the method aborts at the first participant's team `INSERT` — whose column
list names `image_path`, absent from the `teams` schema — after writing
only the fixture row and the state row, and the `teams` and
`fixture_participants` tables keep exactly their previous rows. -/
theorem participants_abort_with_no_link_rows (p : FixtureIn) (t : TeamIn)
    (ts : List TeamIn) (st : DBState)
    (hl : p.league = none) (hv : p.venue = none)
    (hp : p.participants = some (t :: ts)) :
    fixtureOps p =
      (.fixtures p.id (fixtureRowOf p) :: stateOps p,
       some (.operationalError "teams" "image_path")) ∧
    (insert_or_update_fixture p st).2 =
      some (.operationalError "teams" "image_path") ∧
    (insert_or_update_fixture p st).1.teams = st.teams ∧
    (insert_or_update_fixture p st).1.fixture_participants =
      st.fixture_participants := by
  have hpo : participantOps p =
      ([], some (.operationalError "teams" "image_path")) := by
    unfold participantOps
    rw [hp]
  have hchar : fixtureOps p =
      (.fixtures p.id (fixtureRowOf p) :: stateOps p,
       some (.operationalError "teams" "image_path")) := by
    unfold fixtureOps
    rw [leagueOps_of_none hl, venueOps_of_none hv, hpo]
    simp
  have honly : ∀ op ∈ (fixtureOps p).1,
      (match op with | Wr.teams _ _ => False | _ => True) ∧
      (match op with | Wr.fixture_participants _ _ => False | _ => True) := by
    intro op hop
    rw [hchar] at hop
    rcases List.mem_cons.1 hop with rfl | hop
    · exact ⟨trivial, trivial⟩
    · unfold stateOps at hop
      cases hs : p.state with
      | none => rw [hs] at hop; simp at hop
      | some s =>
        rw [hs] at hop
        simp only [List.mem_singleton] at hop
        subst hop
        exact ⟨trivial, trivial⟩
  refine ⟨hchar, ?_, ?_, ?_⟩
  · show (fixtureOps p).2 = _
    rw [hchar]
  · have hops : opsTeams (fixtureOps p).1 = [] := by
      unfold opsTeams
      rw [List.filterMap_eq_nil_iff]
      intro op hop
      have := (honly op hop).1
      cases op <;> simp_all
    show (exec (fixtureOps p).1 st).teams = st.teams
    rw [exec_teams_eq, hops]
    rfl
  · have hops : opsFP (fixtureOps p).1 = [] := by
      unfold opsFP
      rw [List.filterMap_eq_nil_iff]
      intro op hop
      have := (honly op hop).2
      cases op <;> simp_all
    show (exec (fixtureOps p).1 st).fixture_participants =
      st.fixture_participants
    rw [exec_fixture_participants_eq, hops]
    rfl

/-- The C9 failing input: a fixture with one participant carrying an id. -/
def teamCexC9 : TeamIn :=
  { id := some 20, name := some "Arsenal",
    meta := some { location := some "home", winner := some (.jbool true) } }

def fixtureCexC9 : FixtureIn :=
  { id := some 11, participants := some [teamCexC9] }

/-- **C9**.  The claimed referential completeness never materialises: at the
failing input — a fixture whose `participants` list holds a team record
with an id — `insert_or_update_fixture` raises
`OperationalError('teams', 'image_path')` at the participant team `INSERT`
(the `teams` schema has no `image_path` column), so neither a `teams` row
nor a `fixture_participants` row is written, where the claim promises a
completed ingestion whose participant link references a stored team row. -/
theorem participants_abort_before_link_rows :
    (insert_or_update_fixture fixtureCexC9 DBState.empty).2 =
      some (.operationalError "teams" "image_path") ∧
    (insert_or_update_fixture fixtureCexC9 DBState.empty).1.teams = [] ∧
    (insert_or_update_fixture fixtureCexC9
      DBState.empty).1.fixture_participants = [] ∧
    (fixtureOps fixtureCexC9).1 =
      [.fixtures fixtureCexC9.id (fixtureRowOf fixtureCexC9)] :=
  ⟨by decide, by decide, by decide, by decide⟩

/-! ## Boolean-flag normalisation (C10) -/

/-- Is a stored value one of the two normalised flag values? -/
def isFlag (v : SqlVal) : Bool := v == .vint 0 || v == .vint 1

theorem isFlag_flag (v : Option JVal) : isFlag (flag v) = true := by
  unfold flag
  cases truthyOpt v <;> rfl

/-- Every flag-like column a write binds carries a normalised 0/1 value. -/
def opFlagsOK : Wr → Bool
  | .fixtures _ d => isFlag d.placeholder && isFlag d.has_odds
  | .leagues _ d => isFlag d.active && isFlag d.has_jerseys
  | .venues _ d => isFlag d.national_team
  | .teams _ d => isFlag d.placeholder
  | .fixture_participants _ d => isFlag d.winner
  | .periods _ d => isFlag d.ticking && isFlag d.has_timer
  | .events _ d => isFlag d.injured && isFlag d.on_bench
  | .sidelines _ d => isFlag d.completed
  | _ => true

/-- Every write the orchestrator generates has normalised flags: each flag
column value is produced by the `1 if x else 0` pattern. -/
theorem fixtureOps_flagsOK (p : FixtureIn) :
    ∀ op ∈ (fixtureOps p).1, opFlagsOK op = true := by
  refine forall_mem_fixtureOps p ?_ ?_ ?_ ?_ ?_ ?_ ?_
  · simp [opFlagsOK, fixtureRowOf, isFlag_flag]
  · intro s _
    rfl
  · intro s _
    rfl
  · intro e _
    exact ⟨fun t _ => rfl,
      fun pd _ => by simp [opFlagsOK, periodRowOf, isFlag_flag],
      by simp [opFlagsOK, eventRowOf, isFlag_flag]⟩
  · intro l _ s _
    exact ⟨fun t _ => rfl, rfl⟩
  · intro sd _
    exact ⟨rfl, fun sl _ => ⟨fun t _ => rfl,
      by simp [opFlagsOK, sidelineRowOf, isFlag_flag]⟩⟩
  · intro w _
    rfl

/-- All flag-like columns of all stored rows are normalised to 0/1. -/
def flagsOK (st : DBState) : Prop :=
  (∀ r ∈ st.fixtures, isFlag r.2.placeholder = true ∧
    isFlag r.2.has_odds = true) ∧
  (∀ r ∈ st.leagues, isFlag r.2.active = true ∧
    isFlag r.2.has_jerseys = true) ∧
  (∀ r ∈ st.venues, isFlag r.2.national_team = true) ∧
  (∀ r ∈ st.teams, isFlag r.2.placeholder = true) ∧
  (∀ r ∈ st.fixture_participants, isFlag r.2.winner = true) ∧
  (∀ r ∈ st.periods, isFlag r.2.ticking = true ∧
    isFlag r.2.has_timer = true) ∧
  (∀ r ∈ st.events, isFlag r.2.injured = true ∧
    isFlag r.2.on_bench = true) ∧
  (∀ r ∈ st.sidelines, isFlag r.2.completed = true)

/-- Transport a flag fact through a table projection. -/
theorem flag_of_mem_proj {β : Type} (f : Wr → Option (Option Int × β))
    (g : β → Bool)
    (hf : ∀ op q, f op = some q → opFlagsOK op = true → g q.2 = true)
    (ws : List Wr) (hops : ∀ op ∈ ws, opFlagsOK op = true) :
    ∀ d ∈ (ws.filterMap f).map Prod.snd, g d = true := by
  intro d hd
  rcases List.mem_map.1 hd with ⟨w, hw, hww⟩
  rcases List.mem_filterMap.1 hw with ⟨op, hop, hfop⟩
  subst hww
  exact hf op w hfop (hops op hop)

/-- **C10** (amended).  Every flag-like column written by
`insert_or_update_fixture` is normalised to exactly 0 or 1 — ingesting any
payload preserves the all-flags-are-0-or-1 invariant over `fixtures`,
`leagues`, `venues`, `teams`, `fixture_participants`, `periods`, `events`
and `sidelines`.  (The unamended claim fails for the standalone
`insert_or_update_teams`, which passes `team.get('placeholder', 0)` through
raw — see the counterexample.) -/
theorem fixture_ingest_flags_normalised (p : FixtureIn) (st : DBState)
    (h : flagsOK st) : flagsOK (insert_or_update_fixture p st).1 := by
  have hops := fixtureOps_flagsOK p
  obtain ⟨h1, h2, h3, h4, h5, h6, h7, h8⟩ := h
  refine ⟨?_, ?_, ?_, ?_, ?_, ?_, ?_, ?_⟩
  · intro r hr
    rw [show (insert_or_update_fixture p st).1 =
      exec (fixtureOps p).1 st from rfl, exec_fixtures_eq] at hr
    rcases data_of_mem_applyId _ _ _ hr with hold | hnew
    · exact h1 r hold
    · have := flag_of_mem_proj _
        (fun d => isFlag d.placeholder && isFlag d.has_odds)
        (by intro op q hq hfl; cases op <;> simp at hq <;>
          (subst hq; simpa [opFlagsOK] using hfl)) _ hops r.2 hnew
      simpa [Bool.and_eq_true] using this
  · intro r hr
    rw [show (insert_or_update_fixture p st).1 =
      exec (fixtureOps p).1 st from rfl, exec_leagues_eq] at hr
    rcases data_of_mem_applyId _ _ _ hr with hold | hnew
    · exact h2 r hold
    · have := flag_of_mem_proj _
        (fun d => isFlag d.active && isFlag d.has_jerseys)
        (by intro op q hq hfl; cases op <;> simp at hq <;>
          (subst hq; simpa [opFlagsOK] using hfl)) _ hops r.2 hnew
      simpa [Bool.and_eq_true] using this
  · intro r hr
    rw [show (insert_or_update_fixture p st).1 =
      exec (fixtureOps p).1 st from rfl, exec_venues_eq] at hr
    rcases data_of_mem_applyId _ _ _ hr with hold | hnew
    · exact h3 r hold
    · exact flag_of_mem_proj _ (fun d => isFlag d.national_team)
        (by intro op q hq hfl; cases op <;> simp at hq <;>
          (subst hq; simpa [opFlagsOK] using hfl)) _ hops r.2 hnew
  · intro r hr
    rw [show (insert_or_update_fixture p st).1 =
      exec (fixtureOps p).1 st from rfl, exec_teams_eq] at hr
    rcases data_of_mem_applyId _ _ _ hr with hold | hnew
    · exact h4 r hold
    · exact flag_of_mem_proj _ (fun d => isFlag d.placeholder)
        (by intro op q hq hfl; cases op <;> simp at hq <;>
          (subst hq; simpa [opFlagsOK] using hfl)) _ hops r.2 hnew
  · intro r hr
    rw [show (insert_or_update_fixture p st).1 =
      exec (fixtureOps p).1 st from rfl,
      exec_fixture_participants_eq] at hr
    rcases data_of_mem_applyBy _ _ _ _ hr with hold | hnew
    · exact h5 r hold
    · rcases List.mem_map.1 hnew with ⟨w, hw, hww⟩
      rcases List.mem_filterMap.1 hw with ⟨op, hop, hfop⟩
      have hfl := hops op hop
      rw [← hww]
      cases op <;> simp at hfop
      subst hfop
      simpa [opFlagsOK] using hfl
  · intro r hr
    rw [show (insert_or_update_fixture p st).1 =
      exec (fixtureOps p).1 st from rfl, exec_periods_eq] at hr
    rcases data_of_mem_applyId _ _ _ hr with hold | hnew
    · exact h6 r hold
    · have := flag_of_mem_proj _
        (fun d => isFlag d.ticking && isFlag d.has_timer)
        (by intro op q hq hfl; cases op <;> simp at hq <;>
          (subst hq; simpa [opFlagsOK] using hfl)) _ hops r.2 hnew
      simpa [Bool.and_eq_true] using this
  · intro r hr
    rw [show (insert_or_update_fixture p st).1 =
      exec (fixtureOps p).1 st from rfl, exec_events_eq] at hr
    rcases data_of_mem_applyId _ _ _ hr with hold | hnew
    · exact h7 r hold
    · have := flag_of_mem_proj _
        (fun d => isFlag d.injured && isFlag d.on_bench)
        (by intro op q hq hfl; cases op <;> simp at hq <;>
          (subst hq; simpa [opFlagsOK] using hfl)) _ hops r.2 hnew
      simpa [Bool.and_eq_true] using this
  · intro r hr
    rw [show (insert_or_update_fixture p st).1 =
      exec (fixtureOps p).1 st from rfl, exec_sidelines_eq] at hr
    rcases data_of_mem_applyId _ _ _ hr with hold | hnew
    · exact h8 r hold
    · exact flag_of_mem_proj _ (fun d => isFlag d.completed)
        (by intro op q hq hfl; cases op <;> simp at hq <;>
          (subst hq; simpa [opFlagsOK] using hfl)) _ hops r.2 hnew

/-- The C10 counterexample input: a team whose `placeholder` value is the
raw integer 7. -/
def teamRawC10 : TeamIn :=
  { id := some 1, name := some "A", placeholder := some (.jint 7) }

/-- **C10** (counterexample).  `insert_or_update_teams` does not normalise
`teams.placeholder`: the raw input value 7 is stored as-is, which is
neither 0 nor 1. -/
theorem teams_placeholder_stored_raw :
    (insert_or_update_teams [teamRawC10] DBState.empty).2 = none ∧
    ((insert_or_update_teams [teamRawC10] DBState.empty).1.teams.map
      (fun r => r.2.placeholder)) = [.vint 7] ∧
    SqlVal.vint 7 ≠ .vint 0 ∧ SqlVal.vint 7 ≠ .vint 1 := by
  exact ⟨by decide, by decide, by decide, by decide⟩

/-- The C10 witness payload: truthy, falsy and absent flag inputs across
the fixture, period and event rows. -/
def eventWitC10 : EventIn :=
  { id := some 600, injured := some (.jstr "yes"),
    period := some { id := some 91, ticking := some (.jbool true) } }

def fixtureWitC10 : FixtureIn :=
  { id := some 12, placeholder := some (.jbool true),
    has_odds := some (.jint 3), events := some [eventWitC10] }

/-- **C10** (witness): the invariant-preservation theorem applied to the
empty store (whose flag invariant holds trivially) and a concrete payload
with truthy and absent flag inputs. -/
theorem fixture_ingest_flags_normalised_witness :
    flagsOK DBState.empty ∧
    flagsOK (insert_or_update_fixture fixtureWitC10 DBState.empty).1 :=
  have hempty : flagsOK DBState.empty :=
    ⟨fun r hr => by simp [DBState.empty] at hr,
     fun r hr => by simp [DBState.empty] at hr,
     fun r hr => by simp [DBState.empty] at hr,
     fun r hr => by simp [DBState.empty] at hr,
     fun r hr => by simp [DBState.empty] at hr,
     fun r hr => by simp [DBState.empty] at hr,
     fun r hr => by simp [DBState.empty] at hr,
     fun r hr => by simp [DBState.empty] at hr⟩
  ⟨hempty, fixture_ingest_flags_normalised fixtureWitC10 DBState.empty hempty⟩

end Sportsmonks
